import Mathlib

/-! # Powder-Dropper: operational state machine and motion safety supervisor

A shallow embedding of `system_state.{h,cpp}`, `motor_control.{h,cpp}` and the
motor-position, profile and checksum functions of `eeprom_manager.{h,cpp}`.

* The module-level globals of the firmware (`systemStatus`, the six
  `AccelStepper` objects, the function-local statics of `monitorMovement`)
  are passed explicitly.
* Everything the firmware reads from outside (the `millis()` clock, the limit
  switch pins, the TMC2209 status words, the progress of a stepper under
  `run()`, the `isRunning()` readings) is an explicit input.
* `long` positions are `Int`; `unsigned long` clock readings are `Nat` below
  `2 ^ 32`, and their difference is taken modulo `2 ^ 32`.  The `long`
  arithmetic of the jog handler wraps at 32 bits (`wrapLong`).
* The EEPROM is a store of bytes; records are written and read through their
  object representation on a 32-bit little-endian target.
-/

namespace PowderDropper

/-! ## system_state.h -/

/-- The `SystemState` enumeration. -/
inductive SystemState
  | STATE_IDLE
  | STATE_HOMING
  | STATE_ZEROING_SCALE
  | STATE_LOADING_CASE
  | STATE_MOVING_TO_CASE
  | STATE_GRIPPING_CASE
  | STATE_MOVING_TO_SCALE
  | STATE_DROPPING_CASE
  | STATE_DISPENSING_POWDER
  | STATE_FINISHING_DROP
  | STATE_MOVING_TO_START
  | STATE_ERROR
  | STATE_PAUSED
  | STATE_PRIME_MODE
  deriving DecidableEq, Repr

/-- The `ErrorCode` enumeration. -/
inductive ErrorCode
  | ERROR_NONE
  | ERROR_SCALE_COMMUNICATION
  | ERROR_SCALE_TIMEOUT
  | ERROR_MOTOR_TIMEOUT
  | ERROR_LIMIT_SWITCH
  | ERROR_WEIGHT_OVER_TOLERANCE
  | ERROR_NO_WEIGHT_DETECTED
  | ERROR_EEPROM_CORRUPTION
  | ERROR_PROFILE_INVALID
  | ERROR_SD_CARD
  | ERROR_MOTOR_FAULT
  | ERROR_SYSTEM_FAULT
  deriving DecidableEq, Repr

/-- The numeric value of an `ErrorCode` (the enumerators count up from 0). -/
def ErrorCode.toNat : ErrorCode → Nat
  | .ERROR_NONE => 0
  | .ERROR_SCALE_COMMUNICATION => 1
  | .ERROR_SCALE_TIMEOUT => 2
  | .ERROR_MOTOR_TIMEOUT => 3
  | .ERROR_LIMIT_SWITCH => 4
  | .ERROR_WEIGHT_OVER_TOLERANCE => 5
  | .ERROR_NO_WEIGHT_DETECTED => 6
  | .ERROR_EEPROM_CORRUPTION => 7
  | .ERROR_PROFILE_INVALID => 8
  | .ERROR_SD_CARD => 9
  | .ERROR_MOTOR_FAULT => 10
  | .ERROR_SYSTEM_FAULT => 11

/-- The `SystemStatus` record.  The two `float` fields are carried as their
32-bit patterns: no function embedded here computes on them. -/
structure SystemStatus where
  currentState : SystemState
  lastError : ErrorCode
  isHomed : Bool
  isScaleZeroed : Bool
  completedCases : Int
  currentWeight : Nat
  currentFlowRate : Nat
  lastOperationTime : Nat
  isPaused : Bool
  isPrimeMode : Bool
  isEmergencyStop : Bool
  deriving DecidableEq, Repr

open SystemState ErrorCode

/-! ## system_state.cpp -/

/-- The `ERROR_MESSAGES` table. -/
def ERROR_MESSAGES : List String :=
  [ "No error",
    "Scale communication error",
    "Scale timeout error",
    "Motor timeout error",
    "Limit switch triggered",
    "Weight over tolerance",
    "No weight detected",
    "EEPROM corruption",
    "Invalid profile",
    "SD card error",
    "Motor fault",
    "System fault" ]

/-- The lookup `ERROR_MESSAGES[error]`. -/
def errorMessage (error : ErrorCode) : String :=
  ERROR_MESSAGES.getD error.toNat ""

/-- One call of `writeToLogFile(fileName, entry)`. -/
structure LogLine where
  fileName : String
  entry : String
  deriving DecidableEq, Repr

/-- The guard `canTransitionTo(newState)`, a `switch` on the current state. -/
def canTransitionTo (systemStatus : SystemStatus) (newState : SystemState) : Bool :=
  match systemStatus.currentState with
  | STATE_ERROR => newState == STATE_IDLE
  | STATE_PAUSED => newState == STATE_IDLE
  | STATE_PRIME_MODE => newState == STATE_IDLE
  | STATE_IDLE =>
      newState != STATE_ERROR &&
      newState != STATE_PAUSED &&
      newState != STATE_PRIME_MODE
  | _ => false

/-- The assignment pair of `transitionTo(newState)`; `millis` is the clock
reading taken by the call. -/
def transitionTo (systemStatus : SystemStatus) (newState : SystemState) (millis : Nat) :
    SystemStatus :=
  { systemStatus with currentState := newState, lastOperationTime := millis }

/-- The guarded request `updateSystemState(newState)`. -/
def updateSystemState (systemStatus : SystemStatus) (newState : SystemState) (millis : Nat) :
    SystemStatus :=
  if canTransitionTo systemStatus newState then
    transitionTo systemStatus newState millis
  else
    systemStatus

/-- The formatting and write of `logError(error, message)`: `snprintf` into a
256-byte buffer keeps at most 255 characters. -/
def logError (sdLog : List LogLine) (error : ErrorCode) (message : String) : List LogLine :=
  let logEntry :=
    ("ERROR: " ++ errorMessage error ++ " (Code: " ++ toString error.toNat ++ ") - "
      ++ message).take 255
  sdLog ++ [{ fileName := "error_log.txt", entry := logEntry }]

/-- The error entry point `handleSystemError(error)`. -/
def handleSystemError (systemStatus : SystemStatus) (sdLog : List LogLine) (error : ErrorCode) :
    SystemStatus × List LogLine :=
  let systemStatus := { systemStatus with lastError := error }
  let systemStatus := { systemStatus with currentState := STATE_ERROR }
  (systemStatus, logError sdLog error (errorMessage error))

namespace system_state

/-- The `emergencyStop()` defined in `system_state.cpp`. -/
def emergencyStop (systemStatus : SystemStatus) (sdLog : List LogLine) :
    SystemStatus × List LogLine :=
  let systemStatus := { systemStatus with isEmergencyStop := true }
  let systemStatus := { systemStatus with currentState := STATE_ERROR }
  handleSystemError systemStatus sdLog ERROR_SYSTEM_FAULT

end system_state

/-- The function `clearSystemError()`. -/
def clearSystemError (systemStatus : SystemStatus) : SystemStatus :=
  let systemStatus := { systemStatus with lastError := ERROR_NONE }
  { systemStatus with currentState := STATE_IDLE }

/-- The function `pauseSystem()`. -/
def pauseSystem (systemStatus : SystemStatus) : SystemStatus :=
  let systemStatus := { systemStatus with isPaused := true }
  { systemStatus with currentState := STATE_PAUSED }

/-- The function `resumeSystem()`. -/
def resumeSystem (systemStatus : SystemStatus) : SystemStatus :=
  let systemStatus := { systemStatus with isPaused := false }
  { systemStatus with currentState := STATE_IDLE }

/-- The classification `isErrorRecoverable(error)`, a `switch` on the code. -/
def isErrorRecoverable (error : ErrorCode) : Bool :=
  match error with
  | ERROR_SCALE_COMMUNICATION => true
  | ERROR_SCALE_TIMEOUT => true
  | ERROR_MOTOR_TIMEOUT => true
  | ERROR_WEIGHT_OVER_TOLERANCE => true
  | ERROR_NO_WEIGHT_DETECTED => true
  | _ => false

/-- The function `recoverFromError()`.  Modelled from the spec: its helpers
`reinitializeComponents()` and `validateSystemState()` are defined nowhere in
the sources; they re-initialize and re-validate, report success as a boolean
and leave `systemStatus` alone.  Their outcomes are the two boolean inputs;
the second is consulted only when the first is true. -/
def recoverFromError (systemStatus : SystemStatus)
    (reinitializeComponents validateSystemState : Bool) : SystemStatus :=
  if isErrorRecoverable systemStatus.lastError then
    if !reinitializeComponents then systemStatus
    else if !validateSystemState then systemStatus
    else clearSystemError systemStatus
  else
    systemStatus

/-- The function `resetSystem()`. -/
def resetSystem (systemStatus : SystemStatus) : SystemStatus :=
  let systemStatus := { systemStatus with isEmergencyStop := false }
  let systemStatus := { systemStatus with isPaused := false }
  let systemStatus := { systemStatus with currentState := STATE_IDLE }
  { systemStatus with lastError := ERROR_NONE }

/-- The predicate `isSystemReady()`. -/
def isSystemReady (systemStatus : SystemStatus) : Bool :=
  systemStatus.currentState == STATE_IDLE &&
  !systemStatus.isPaused &&
  !systemStatus.isPrimeMode &&
  !systemStatus.isEmergencyStop

/-- The `SystemConfig` record.  The `float` fields are carried as the bit
patterns of IEEE-754 single precision values. -/
structure SystemConfig where
  targetWeight : Nat
  tolerancePercentage : Nat
  caseQuantity : Int
  vibratorySpeed : Nat
  scaleSettleTime : Nat
  accuracyRange : Nat
  continuousMode : Bool
  primeMode : Bool
  autoLearningEnabled : Bool
  averagingEnabled : Bool
  checksum : Nat
  deriving DecidableEq, Repr

/-- The bit pattern of the `float` 0.0. -/
def float32_0_0 : Nat := 0x00000000

/-- The bit pattern of the `float` nearest to 0.1. -/
def float32_0_1 : Nat := 0x3DCCCCCD

/-- The bit pattern of the `float` 1.0. -/
def float32_1_0 : Nat := 0x3F800000

namespace system_state

/-- The `EEPROM_CONFIG_START` that `system_state.cpp` defines for itself. -/
def EEPROM_CONFIG_START : Nat := 200

/-- The `saveSystemConfig()` of `system_state.cpp`.  The one-argument
`calculateChecksum(systemConfig)` it calls is defined nowhere in the sources
and is an input; `puts` collects the records handed to `EEPROM.put`, with
their addresses, oldest first. -/
def saveSystemConfig (systemConfig : SystemConfig) (calculateChecksum : SystemConfig → Nat)
    (puts : List (Nat × SystemConfig)) : SystemConfig × List (Nat × SystemConfig) :=
  let systemConfig := { systemConfig with checksum := calculateChecksum systemConfig }
  (systemConfig, puts ++ [(EEPROM_CONFIG_START, systemConfig)])

/-- The `loadSystemConfig()` of `system_state.cpp`; `stored` is the record
that `EEPROM.get` reads at `EEPROM_CONFIG_START`. -/
def loadSystemConfig (stored : SystemConfig) (calculateChecksum : SystemConfig → Nat)
    (puts : List (Nat × SystemConfig)) : SystemConfig × List (Nat × SystemConfig) :=
  let systemConfig := stored
  if systemConfig.checksum ≠ calculateChecksum systemConfig then
    let systemConfig := { systemConfig with targetWeight := float32_0_0 }
    let systemConfig := { systemConfig with tolerancePercentage := float32_0_1 }
    let systemConfig := { systemConfig with caseQuantity := 0 }
    let systemConfig := { systemConfig with vibratorySpeed := 0 }
    let systemConfig := { systemConfig with scaleSettleTime := 1000 }
    let systemConfig := { systemConfig with accuracyRange := float32_0_1 }
    let systemConfig := { systemConfig with continuousMode := false }
    let systemConfig := { systemConfig with primeMode := false }
    let systemConfig := { systemConfig with autoLearningEnabled := true }
    let systemConfig := { systemConfig with averagingEnabled := true }
    let systemConfig := { systemConfig with checksum := calculateChecksum systemConfig }
    saveSystemConfig systemConfig calculateChecksum puts
  else
    (systemConfig, puts)

end system_state

/-! ## motor_control.h -/

def X_LIMIT_PIN : Nat := 5
def Y_LIMIT_PIN : Nat := 25
def Z_LIMIT_PIN : Nat := 9
def GRIPPER_LIMIT_PIN : Nat := 29
def CASE_FEEDER_LIMIT_PIN : Nat := 33

def X_MIN_POS : Int := 0
def X_MAX_POS : Int := 235000
def Y_MIN_POS : Int := 0
def Y_MAX_POS : Int := 235000
def Z_MIN_POS : Int := 0
def Z_MAX_POS : Int := 250000
def GRIPPER_MIN_POS : Int := 0
def GRIPPER_MAX_POS : Int := 1000

def X_SAFE_POSITION : Int := 117500
def Y_SAFE_POSITION : Int := 117500
def Z_SAFE_POSITION : Int := 125000

def SAFE_POSITION_CHECK_INTERVAL : Nat := 100

def JOG_DEFAULT_DISTANCE : Int := 1000

/-- The `MotorPositions` record of `motor_control.h`. -/
structure MotorPositions where
  xPos1 : Int
  xPos4 : Int
  zPos2 : Int
  zPos3 : Int
  zPos5 : Int
  gripperPosA : Int
  gripperPosB : Int
  isValid : Bool
  deriving DecidableEq, Repr

/-- The `JogState` record. -/
structure JogState where
  xPos : Int
  yPos : Int
  zPos : Int
  jogDistance : Int
  isJogging : Bool
  deriving DecidableEq, Repr

/-- Which of the six global `AccelStepper` objects a reference
`AccelStepper& stepper` designates; the source compares `&stepper` with the
addresses of these objects. -/
inductive Stepper
  | stepperX
  | stepperY
  | stepperZ
  | stepperGripper
  | stepperCaseFeeder
  | stepperPowderDropper
  deriving DecidableEq, Repr

open Stepper

/-- Modelled from the spec: the `AccelStepper` driver class is an external
library and not part of the sources.  Per the Axis model, a stepper has a
current position, changed only by the driver while it runs, and the target it
was last commanded to. -/
structure AccelStepper where
  currentPos : Int
  targetPos : Int
  deriving DecidableEq, Repr

/-- A member call that commands an actuator. -/
inductive Command
  | moveTo (absolute : Int)
  | run
  | stop
  deriving DecidableEq, Repr

/-- A digital pin level. -/
inductive Level
  | LOW
  | HIGH
  deriving DecidableEq, Repr

/-- The globals of `motor_control.cpp` that the movement functions use: the
six steppers and the two function-local statics of `monitorMovement`
(`lastCheck`, `lastPosition`, both initially 0).  `issued` records, oldest
first, every command sent to an actuator. -/
structure Motors where
  stepperX : AccelStepper
  stepperY : AccelStepper
  stepperZ : AccelStepper
  stepperGripper : AccelStepper
  stepperCaseFeeder : AccelStepper
  stepperPowderDropper : AccelStepper
  lastCheck : Nat
  lastPosition : Int
  issued : List (Stepper × Command)
  deriving DecidableEq, Repr

/-- The stepper object a reference designates. -/
def Motors.get (m : Motors) : Stepper → AccelStepper
  | .stepperX => m.stepperX
  | .stepperY => m.stepperY
  | .stepperZ => m.stepperZ
  | .stepperGripper => m.stepperGripper
  | .stepperCaseFeeder => m.stepperCaseFeeder
  | .stepperPowderDropper => m.stepperPowderDropper

/-- Write back the stepper object a reference designates. -/
def Motors.set (m : Motors) (stepper : Stepper) (a : AccelStepper) : Motors :=
  match stepper with
  | .stepperX => { m with stepperX := a }
  | .stepperY => { m with stepperY := a }
  | .stepperZ => { m with stepperZ := a }
  | .stepperGripper => { m with stepperGripper := a }
  | .stepperCaseFeeder => { m with stepperCaseFeeder := a }
  | .stepperPowderDropper => { m with stepperPowderDropper := a }

/-- Modelled from the spec: `stepper.currentPosition()`. -/
def currentPosition (m : Motors) (stepper : Stepper) : Int :=
  (m.get stepper).currentPos

/-- Modelled from the spec: `stepper.distanceToGo()`, the steps left between
the current position and the commanded target ("motion remains outstanding"
while it is not 0). -/
def distanceToGo (m : Motors) (stepper : Stepper) : Int :=
  (m.get stepper).targetPos - (m.get stepper).currentPos

/-- Modelled from the spec: `stepper.moveTo(targetPos)` commands the actuator
toward `targetPos`. -/
def moveTo (m : Motors) (stepper : Stepper) (targetPos : Int) : Motors :=
  { m.set stepper { m.get stepper with targetPos := targetPos } with
    issued := m.issued ++ [(stepper, Command.moveTo targetPos)] }

/-- Modelled from the spec: `stepper.run()`.  Whether and how far the driver
steps depends on its speed profile and on time; `position` is where the
stepper stands once the call returns. -/
def run (m : Motors) (stepper : Stepper) (position : Int) : Motors :=
  { m.set stepper { m.get stepper with currentPos := position } with
    issued := m.issued ++ [(stepper, Command.run)] }

/-- Modelled from the spec: `stepper.stop()`.  The driver re-targets the
stepper to the point where it can come to rest; `restAt` is that point. -/
def stop (m : Motors) (stepper : Stepper) (restAt : Int) : Motors :=
  { m.set stepper { m.get stepper with targetPos := restAt } with
    issued := m.issued ++ [(stepper, Command.stop)] }

/-- What `stopAllMotors()` meets outside the program: where each `stop()`
re-targets its stepper, and the `isRunning()` readings of each pass of the
waiting loop. -/
structure StopEnv where
  restAt : Stepper → Int
  isRunning : List (Stepper → Bool)

/-- What one pass of the loop of `moveToPosition` meets outside the program. -/
structure Tick where
  /-- Where the moved stepper stands after `run()`. -/
  position : Int
  /-- The `millis()` reading compared with `lastCheck`. -/
  millis : Nat
  /-- The `getDRV_STATUS()` word of each axis's TMC2209 driver. -/
  DRV_STATUS : Stepper → Nat
  /-- The `millis()` reading stored into `lastCheck`. -/
  millisStored : Nat
  /-- The levels of the input pins during this pass. -/
  digitalRead : Nat → Level

/-- What one call of `moveToPosition` meets outside the program. -/
structure MoveEnv where
  /-- The levels of the input pins when the pre-move check runs. -/
  digitalRead : Nat → Level
  /-- The passes of the movement loop, in order. -/
  ticks : List Tick
  /-- The surroundings of the `emergencyStop()` inside `monitorMovement`. -/
  faultStop : StopEnv
  /-- The surroundings of the `stopAllMotors()` of the abort branch. -/
  abortStop : StopEnv

/-! ## motor_control.cpp -/

/-- The waiting loop of `stopAllMotors()`: `none` when the readings end with
some stepper still running. -/
def waitStopped (m : Motors) : List (Stepper → Bool) → Option Motors
  | [] => none
  | isRunning :: later =>
      if isRunning stepperX || isRunning stepperY ||
         isRunning stepperZ || isRunning stepperGripper ||
         isRunning stepperCaseFeeder || isRunning stepperPowderDropper then
        waitStopped m later
      else
        some m

/-- The six `stop()` calls of `stopAllMotors()`, in source order. -/
def stopCalls (m : Motors) (restAt : Stepper → Int) : Motors :=
  let m := stop m stepperX (restAt stepperX)
  let m := stop m stepperY (restAt stepperY)
  let m := stop m stepperZ (restAt stepperZ)
  let m := stop m stepperGripper (restAt stepperGripper)
  let m := stop m stepperCaseFeeder (restAt stepperCaseFeeder)
  stop m stepperPowderDropper (restAt stepperPowderDropper)

/-- The function `stopAllMotors()`. -/
def stopAllMotors (m : Motors) (env : StopEnv) : Option Motors :=
  waitStopped (stopCalls m env.restAt) env.isRunning

namespace motor_control

/-- The `emergencyStop()` defined in `motor_control.cpp`. -/
def emergencyStop (m : Motors) (env : StopEnv) : Option Motors :=
  stopAllMotors m env

end motor_control

/-- The bounds check `isValidPosition(stepper, targetPos)`. -/
def isValidPosition (stepper : Stepper) (targetPos : Int) : Bool :=
  if stepper = stepperX then
    decide (targetPos ≥ X_MIN_POS) && decide (targetPos ≤ X_MAX_POS)
  else if stepper = stepperY then
    decide (targetPos ≥ Y_MIN_POS) && decide (targetPos ≤ Y_MAX_POS)
  else if stepper = stepperZ then
    decide (targetPos ≥ Z_MIN_POS) && decide (targetPos ≤ Z_MAX_POS)
  else if stepper = stepperGripper then
    decide (targetPos ≥ GRIPPER_MIN_POS) && decide (targetPos ≤ GRIPPER_MAX_POS)
  else
    false

/-- The pin scan `checkLimitSwitches()`. -/
def checkLimitSwitches (digitalRead : Nat → Level) : Bool :=
  if digitalRead X_LIMIT_PIN = Level.LOW then true
  else if digitalRead Y_LIMIT_PIN = Level.LOW then true
  else if digitalRead Z_LIMIT_PIN = Level.LOW then true
  else if digitalRead GRIPPER_LIMIT_PIN = Level.LOW then true
  else if digitalRead CASE_FEEDER_LIMIT_PIN = Level.LOW then true
  else false

/-- The pre-move check `checkForObstacles(stepper, targetPos)`. -/
def checkForObstacles (m : Motors) (stepper : Stepper) (_targetPos : Int)
    (digitalRead : Nat → Level) : Bool :=
  if checkLimitSwitches digitalRead then true
  else if stepper = stepperX then
    if currentPosition m stepperY < Y_SAFE_POSITION then true else false
  else if stepper = stepperY then
    if currentPosition m stepperX < X_SAFE_POSITION then true else false
  else if stepper = stepperZ then
    if currentPosition m stepperX < X_SAFE_POSITION then true else false
  else
    false

/-- The `unsigned long` difference `millis() - lastCheck` (32 bits, wrapping). -/
def elapsed (millis lastCheck : Nat) : Nat :=
  (millis + 4294967296 - lastCheck % 4294967296) % 4294967296

/-- The status word `drv_status` that `monitorMovement` tests: read from the
axis's driver for X, Y and Z, and left at 0 for the other steppers. -/
def drvStatus (stepper : Stepper) (DRV_STATUS : Stepper → Nat) : Nat :=
  if stepper = stepperX then DRV_STATUS stepperX
  else if stepper = stepperY then DRV_STATUS stepperY
  else if stepper = stepperZ then DRV_STATUS stepperZ
  else 0

/-- The sampling function `monitorMovement(stepper)`.  The `emergencyStop()`
it calls is the one of its own file, `motor_control.cpp`.  The result is
`none` when that call does not return. -/
def monitorMovement (m : Motors) (stepper : Stepper) (t : Tick) (faultStop : StopEnv) :
    Option (Bool × Motors) :=
  if elapsed t.millis m.lastCheck ≥ SAFE_POSITION_CHECK_INTERVAL then
    if currentPosition m stepper = m.lastPosition then
      some (false, m)
    else
      if drvStatus stepper t.DRV_STATUS &&& 0x00010000 ≠ 0 then
        (motor_control.emergencyStop m faultStop).map (fun m => (false, m))
      else
        some (true, { m with lastPosition := currentPosition m stepper,
                             lastCheck := t.millisStored })
  else
    some (true, m)

/-- The `while (stepper.distanceToGo() != 0)` loop of `moveToPosition`, one
`Tick` per pass; `none` when the ticks end with the move still outstanding,
or when a stop does not return. -/
def moveLoop (stepper : Stepper) (faultStop abortStop : StopEnv) :
    List Tick → Motors → Option (Bool × Motors)
  | [], m => if distanceToGo m stepper = 0 then some (true, m) else none
  | t :: later, m =>
    if distanceToGo m stepper = 0 then some (true, m)
    else
      match monitorMovement (run m stepper t.position) stepper t faultStop with
      | none => none
      | some (true, m) => moveLoop stepper faultStop abortStop later m
      | some (false, m) => (stopAllMotors m abortStop).map (fun m => (false, m))

/-- The bounded move `moveToPosition(stepper, targetPos)`. -/
def moveToPosition (m : Motors) (stepper : Stepper) (targetPos : Int) (env : MoveEnv) :
    Option (Bool × Motors) :=
  if !isValidPosition stepper targetPos then some (false, m)
  else if checkForObstacles m stepper targetPos env.digitalRead then some (false, m)
  else moveLoop stepper env.faultStop env.abortStop env.ticks (moveTo m stepper targetPos)

/-- The value a 32-bit `long` holds after an addition or multiplication whose
exact result is `x` (two's complement wrap-around; the exact result itself
whenever it is representable). -/
def wrapLong (x : Int) : Int :=
  (x + 2147483648) % 4294967296 - 2147483648

/-- The jog handler `handleJogMovement(axis, direction)` of
`motor_control.cpp`.  The `switch` selects the stepper together with the
cursor field that `currentPos` points to (read and write access). -/
def handleJogMovement (jogState : JogState) (m : Motors) (axis direction : Int)
    (env : MoveEnv) : Option (JogState × Motors) :=
  let jogState := if !jogState.isJogging then { jogState with isJogging := true } else jogState
  let selected : Option (Stepper × (JogState → Int) × (JogState → Int → JogState)) :=
    if axis = 0 then some (stepperX, JogState.xPos, fun j v => { j with xPos := v })
    else if axis = 1 then some (stepperY, JogState.yPos, fun j v => { j with yPos := v })
    else if axis = 2 then some (stepperZ, JogState.zPos, fun j v => { j with zPos := v })
    else none
  match selected with
  | none => some (jogState, m)
  | some (stepper, currentPos, assign) =>
    let targetPos := wrapLong (currentPos jogState + wrapLong (direction * jogState.jogDistance))
    if isValidPosition stepper targetPos then
      match moveToPosition m stepper targetPos env with
      | none => none
      | some (_, m) => some (assign jogState targetPos, m)
    else
      some (jogState, m)

/-- The function `resetMotorsToSafePositions()`; each of its three moves has
its own surroundings. -/
def resetMotorsToSafePositions (m : Motors) (envZ envX envY : MoveEnv) :
    Option (Bool × Motors) :=
  let success := true
  match moveToPosition m stepperZ Z_SAFE_POSITION envZ with
  | none => none
  | some (movedZ, m) =>
    let success := if !movedZ then false else success
    match moveToPosition m stepperX X_SAFE_POSITION envX with
    | none => none
    | some (movedX, m) =>
      let success := if !movedX then false else success
      match moveToPosition m stepperY Y_SAFE_POSITION envY with
      | none => none
      | some (movedY, m) =>
        let success := if !movedY then false else success
        some (success, m)

/-- The check `validateMotorPositions()` on the global `motorPos`. -/
def validateMotorPositions (motorPos : MotorPositions) : Bool :=
  if !motorPos.isValid then false
  else if decide (motorPos.xPos1 < X_MIN_POS) || decide (motorPos.xPos1 > X_MAX_POS) ||
      decide (motorPos.xPos4 < X_MIN_POS) || decide (motorPos.xPos4 > X_MAX_POS) then false
  else if decide (motorPos.zPos2 < Z_MIN_POS) || decide (motorPos.zPos2 > Z_MAX_POS) ||
      decide (motorPos.zPos3 < Z_MIN_POS) || decide (motorPos.zPos3 > Z_MAX_POS) ||
      decide (motorPos.zPos5 < Z_MIN_POS) || decide (motorPos.zPos5 > Z_MAX_POS) then false
  else if decide (motorPos.gripperPosA < GRIPPER_MIN_POS) ||
      decide (motorPos.gripperPosA > GRIPPER_MAX_POS) ||
      decide (motorPos.gripperPosB < GRIPPER_MIN_POS) ||
      decide (motorPos.gripperPosB > GRIPPER_MAX_POS) then false
  else true

/-- The `loadMotorPositions()` of `motor_control.cpp`: `EEPROM.get` overwrites
the global `motorPos` with the record `stored` at `MOTOR_POS_EEPROM_ADDR`. -/
def loadMotorPositions (_motorPos stored : MotorPositions) : MotorPositions :=
  stored

/-- The function `initializeMotors()`: its result and the `motorPos` it
leaves.  The configuration calls before the load set pins, maximum speeds and
accelerations of the drivers, which the stepper model does not carry. -/
def initializeMotors (motorPos stored : MotorPositions) : Bool × MotorPositions :=
  let motorPos := loadMotorPositions motorPos stored
  if !validateMotorPositions motorPos then (false, motorPos)
  else (true, motorPos)

/-- The passes `earlier` of the movement loop all went through (the move was
outstanding at each and `monitorMovement` returned true): the state in which
the loop test is evaluated next, `none` if the loop ended within them. -/
def loopReaches (stepper : Stepper) (faultStop : StopEnv) :
    List Tick → Motors → Option Motors
  | [], m => some m
  | t :: later, m =>
    if distanceToGo m stepper = 0 then none
    else
      match monitorMovement (run m stepper t.position) stepper t faultStop with
      | some (true, m) => loopReaches stepper faultStop later m
      | _ => none

/-! ## eeprom_manager.h -/

def EEPROM_CHECKSUM_ADDR : Nat := 1
def EEPROM_PROFILES_START : Nat := 100
def EEPROM_POSITIONS_START : Nat := 500
def MAX_PROFILES : Int := 10

/-- Modelled from the spec: the `EEPROM` object of the Arduino core, an
external library, is a byte-addressable store of `length` bytes; `data` gives
the content of each cell. -/
structure EEPROMClass where
  data : Nat → Nat
  length : Nat

/-- Modelled from the spec: `EEPROM.read(address)`, one byte. -/
def EEPROMClass.read (EEPROM : EEPROMClass) (address : Nat) : Nat :=
  EEPROM.data address % 256

/-- Modelled from the spec: `EEPROM.put(address, t)`, where `bytes` is the
object representation of `t`: the bytes are copied to the cells from
`address` on; a `put` that does not fit into the store writes nothing. -/
def EEPROMClass.put (EEPROM : EEPROMClass) (address : Nat) (bytes : List Nat) : EEPROMClass :=
  if address + bytes.length > EEPROM.length then EEPROM
  else
    { EEPROM with
      data := fun i =>
        if address ≤ i ∧ i < address + bytes.length then bytes.getD (i - address) 0
        else EEPROM.data i }

/-- The object representation of a 32-bit value: four bytes, least
significant first. -/
def wordBytes (u : Nat) : List Nat :=
  [u % 256, u / 256 % 256, u / 65536 % 256, u / 16777216 % 256]

/-- The object representation of a `long` (32 bits, two's complement). -/
def longBytes (x : Int) : List Nat :=
  wordBytes (x % 4294967296).toNat

/-- The `long` that four bytes represent. -/
def decodeLong (b0 b1 b2 b3 : Nat) : Int :=
  wrapLong ((b0 + 256 * b1 + 65536 * b2 + 16777216 * b3 : Nat) : Int)

/-- The `long` that `EEPROM.get` reads at `address`. -/
def EEPROMClass.getLong (EEPROM : EEPROMClass) (address : Nat) : Int :=
  decodeLong (EEPROM.read address) (EEPROM.read (address + 1)) (EEPROM.read (address + 2))
    (EEPROM.read (address + 3))

/-- The `bool` that `EEPROM.get` reads at `address`. -/
def EEPROMClass.getBool (EEPROM : EEPROMClass) (address : Nat) : Bool :=
  EEPROM.read address != 0

namespace eeprom_manager

/-- The `MotorPositions` record of `eeprom_manager.h` (it has a `checksum`
byte that the record of `motor_control.h` lacks). -/
structure MotorPositions where
  xPos1 : Int
  xPos4 : Int
  zPos2 : Int
  zPos3 : Int
  zPos5 : Int
  gripperPosA : Int
  gripperPosB : Int
  isValid : Bool
  checksum : Nat
  deriving DecidableEq, Repr

/-- The object representation of a `MotorPositions` on a 32-bit target: seven
`long`s, the `bool`, the `uint8_t`, and two bytes of padding (written as 0
here; nothing reads them back). -/
def MotorPositions.bytes (p : MotorPositions) : List Nat :=
  longBytes p.xPos1 ++ longBytes p.xPos4 ++ longBytes p.zPos2 ++ longBytes p.zPos3 ++
    longBytes p.zPos5 ++ longBytes p.gripperPosA ++ longBytes p.gripperPosB ++
    [if p.isValid then 1 else 0, p.checksum % 256, 0, 0]

/-- The record that `EEPROM.get(address, positions)` reads. -/
def getMotorPositions (EEPROM : EEPROMClass) (address : Nat) : MotorPositions :=
  { xPos1 := EEPROM.getLong address
    xPos4 := EEPROM.getLong (address + 4)
    zPos2 := EEPROM.getLong (address + 8)
    zPos3 := EEPROM.getLong (address + 12)
    zPos5 := EEPROM.getLong (address + 16)
    gripperPosA := EEPROM.getLong (address + 20)
    gripperPosB := EEPROM.getLong (address + 24)
    isValid := EEPROM.getBool (address + 28)
    checksum := EEPROM.read (address + 29) }

/-- The `PowderProfile` record of `eeprom_manager.h`; the characters of `name`
are byte values and the `float` fields are carried as their bit patterns. -/
structure PowderProfile where
  name : List Nat
  multiplier : Nat
  rotationCount : Nat
  totalWeight : Nat
  isValid : Bool
  checksum : Nat
  deriving DecidableEq, Repr

/-- The object representation of a `PowderProfile` on a 32-bit target: the 32
bytes of `name`, three `float`s, the `bool`, the `uint8_t`, and two bytes of
padding. -/
def PowderProfile.bytes (profile : PowderProfile) : List Nat :=
  ((profile.name.map (fun c => c % 256)) ++ List.replicate 32 0).take 32 ++
    wordBytes profile.multiplier ++ wordBytes profile.rotationCount ++
    wordBytes profile.totalWeight ++
    [if profile.isValid then 1 else 0, profile.checksum % 256, 0, 0]

/-- The size `sizeof(PowderProfile)` on a 32-bit target: 32 + 3 * 4 + 1 + 1
bytes of fields, rounded up to a multiple of 4. -/
def EEPROM_PROFILE_SIZE : Nat := 48

/-- The size `sizeof(MotorPositions)` on a 32-bit target: 7 * 4 + 1 + 1 bytes
of fields, rounded up to a multiple of 4. -/
def EEPROM_POSITION_SIZE : Nat := 32

/-- The record `defaultConfig` that `formatEEPROM()` builds and saves. -/
def defaultConfig : SystemConfig :=
  { targetWeight := float32_0_0
    tolerancePercentage := float32_1_0
    caseQuantity := 0
    vibratorySpeed := 128
    scaleSettleTime := 1000
    accuracyRange := float32_0_1
    continuousMode := false
    primeMode := false
    autoLearningEnabled := true
    averagingEnabled := true
    checksum := 0 }

/-! ## eeprom_manager.cpp -/

/-- The function `calculateChecksum()`: the loop over the whole store. -/
def calculateChecksum (EEPROM : EEPROMClass) : Nat :=
  (List.range EEPROM.length).foldl
    (fun checksum i => if i ≠ EEPROM_CHECKSUM_ADDR then checksum ^^^ EEPROM.read i else checksum)
    0

/-- The function `saveMotorPositions(positions)` of `eeprom_manager.cpp`;
`commit` is what `EEPROM.commit()` returns. -/
def saveMotorPositions (EEPROM : EEPROMClass) (positions : MotorPositions) (commit : Bool) :
    Bool × EEPROMClass :=
  let EEPROM := EEPROM.put EEPROM_POSITIONS_START positions.bytes
  let checksum := calculateChecksum EEPROM
  let EEPROM := EEPROM.put EEPROM_CHECKSUM_ADDR [checksum]
  (commit, EEPROM)

/-- The function `loadMotorPositions(positions)` of `eeprom_manager.cpp`: its
result and the record it leaves in `positions`. -/
def loadMotorPositions (EEPROM : EEPROMClass) : Bool × MotorPositions :=
  let positions := getMotorPositions EEPROM EEPROM_POSITIONS_START
  (positions.isValid, positions)

/-- The function `savePowderProfile(index, profile)`; `commit` is what
`EEPROM.commit()` returns. -/
def savePowderProfile (EEPROM : EEPROMClass) (index : Int) (profile : PowderProfile)
    (commit : Bool) : Bool × EEPROMClass :=
  if index < 0 ∨ index ≥ MAX_PROFILES then (false, EEPROM)
  else
    let profileAddr := EEPROM_PROFILES_START + index.toNat * EEPROM_PROFILE_SIZE
    let EEPROM := EEPROM.put profileAddr profile.bytes
    let checksum := calculateChecksum EEPROM
    let EEPROM := EEPROM.put EEPROM_CHECKSUM_ADDR [checksum]
    (commit, EEPROM)

end eeprom_manager

/-! ## The whole firmware state -/

/-- The globals of both modules side by side: the two definitions of
`emergencyStop()` act on different parts of it. -/
structure Firmware where
  systemStatus : SystemStatus
  sdLog : List LogLine
  motors : Motors
  deriving DecidableEq, Repr

/-- The `emergencyStop()` of `system_state.cpp`, in the whole state. -/
def Firmware.systemEmergencyStop (fw : Firmware) : Firmware :=
  { fw with
    systemStatus := (system_state.emergencyStop fw.systemStatus fw.sdLog).1,
    sdLog := (system_state.emergencyStop fw.systemStatus fw.sdLog).2 }

/-- The `emergencyStop()` of `motor_control.cpp`, in the whole state. -/
def Firmware.motorEmergencyStop (fw : Firmware) (env : StopEnv) : Option Firmware :=
  (motor_control.emergencyStop fw.motors env).map (fun m => { fw with motors := m })

/-! ## Statements of the specification -/

/-- The travel range the specification states for each bounded axis: X and Y
`[0, 235000]`, Z `[0, 250000]`, gripper `[0, 1000]`; it states none for the
case feeder and the powder dropper. -/
def specTravelRange : Stepper → Int → Prop
  | .stepperX, p => 0 ≤ p ∧ p ≤ 235000
  | .stepperY, p => 0 ≤ p ∧ p ≤ 235000
  | .stepperZ, p => 0 ≤ p ∧ p ≤ 250000
  | .stepperGripper, p => 0 ≤ p ∧ p ≤ 1000
  | .stepperCaseFeeder, _ => False
  | .stepperPowderDropper, _ => False

instance specTravelRange.decidable (stepper : Stepper) (p : Int) :
    Decidable (specTravelRange stepper p) := by
  cases stepper <;> unfold specTravelRange <;> infer_instance

/-- A stop issued to each of the six actuators, in the order of
`stopAllMotors()`. -/
def sixStops : List (Stepper × Command) :=
  [ (stepperX, Command.stop), (stepperY, Command.stop), (stepperZ, Command.stop),
    (stepperGripper, Command.stop), (stepperCaseFeeder, Command.stop),
    (stepperPowderDropper, Command.stop) ]

/-- The specification's `emergencyStop()`: started in `before`, the call
returns a state `after` in which a stop went to every actuator since `before`
and the system is in `Error` with the system-fault code. -/
def SpecEmergencyStop (before : Firmware) (result : Option Firmware) : Prop :=
  ∃ after, result = some after ∧
    (∀ stepper : Stepper,
      (stepper, Command.stop) ∈ after.motors.issued.drop before.motors.issued.length) ∧
    after.systemStatus.currentState = STATE_ERROR ∧
    after.systemStatus.lastError = ERROR_SYSTEM_FAULT

/-- The waiting loop of `stopAllMotors()` comes to an end: some pass reads
every stepper as not running. -/
def StopEnv.settles (env : StopEnv) : Prop :=
  ∃ isRunning ∈ env.isRunning, ∀ stepper : Stepper, isRunning stepper = false

/-! ## Concrete states and surroundings -/

/-- The status assignments of `initSystemState()` (its `loadSystemConfig()`
call only touches `systemConfig`). -/
def initSystemState : SystemStatus :=
  { currentState := STATE_IDLE
    lastError := ERROR_NONE
    isHomed := false
    isScaleZeroed := false
    completedCases := 0
    currentWeight := 0
    currentFlowRate := 0
    lastOperationTime := 0
    isPaused := false
    isPrimeMode := false
    isEmergencyStop := false }

/-- The motor globals at power-up: every stepper at position 0 with target 0,
both statics of `monitorMovement` 0, nothing commanded yet. -/
def motorsAtBoot : Motors :=
  { stepperX := { currentPos := 0, targetPos := 0 }
    stepperY := { currentPos := 0, targetPos := 0 }
    stepperZ := { currentPos := 0, targetPos := 0 }
    stepperGripper := { currentPos := 0, targetPos := 0 }
    stepperCaseFeeder := { currentPos := 0, targetPos := 0 }
    stepperPowderDropper := { currentPos := 0, targetPos := 0 }
    lastCheck := 0
    lastPosition := 0
    issued := [] }

/-- The firmware state at power-up. -/
def firmwareAtBoot : Firmware :=
  { systemStatus := initSystemState, sdLog := [], motors := motorsAtBoot }

/-- Surroundings of a stop in which every stepper rests at 0 and reads as not
running at the first pass of the wait. -/
def stopAtRest : StopEnv :=
  { restAt := fun _ => 0, isRunning := [fun _ => false] }

/-- One pass of the movement loop: the stepper stands at `position` at
`millis` ms, no driver reports a fault, and every input pin reads `level`. -/
def tickAt (position : Int) (millis : Nat) (level : Level) : Tick :=
  { position := position
    millis := millis
    DRV_STATUS := fun _ => 0
    millisStored := millis
    digitalRead := fun _ => level }

/-- Surroundings of a move: no limit switch tripped at the pre-move check,
then the given passes. -/
def moveEnvOf (ticks : List Tick) : MoveEnv :=
  { digitalRead := fun _ => Level.HIGH
    ticks := ticks
    faultStop := stopAtRest
    abortStop := stopAtRest }

/-- A gripper move from 0 to 2 that goes through: one step by 100 ms (a
sample is taken), the second by 150 ms. -/
def gripperTwoSteps : MoveEnv :=
  moveEnvOf [tickAt 1 100 Level.HIGH, tickAt 2 150 Level.HIGH]

/-- The motor state after the move `gripperTwoSteps` from power-up. -/
def afterGripperTwoSteps : Motors :=
  { motorsAtBoot with
    stepperGripper := { currentPos := 2, targetPos := 2 }
    lastCheck := 100
    lastPosition := 1
    issued := [(stepperGripper, Command.moveTo 2), (stepperGripper, Command.run),
      (stepperGripper, Command.run)] }

/-- A gripper move from 0 toward 5 that stalls: one step by 100 ms, and still
at position 1 at the sample of 200 ms. -/
def gripperStalls : MoveEnv :=
  moveEnvOf [tickAt 1 100 Level.HIGH, tickAt 1 200 Level.HIGH]

/-- The motor state at the loop test after the first pass of `gripperStalls`. -/
def gripperAfterFirstPass : Motors :=
  { motorsAtBoot with
    stepperGripper := { currentPos := 1, targetPos := 5 }
    lastCheck := 100
    lastPosition := 1
    issued := [(stepperGripper, Command.moveTo 5), (stepperGripper, Command.run)] }

/-- A gripper move from 0 to 1 during which every limit switch reads tripped
(LOW) in the pass where the 100 ms sample is taken. -/
def gripperTrippedMidMove : MoveEnv :=
  moveEnvOf [tickAt 1 100 Level.LOW]

/-- The motor state after the move `gripperTrippedMidMove` from power-up: the
gripper is at its target and no stop was issued. -/
def afterGripperTrippedMidMove : Motors :=
  { motorsAtBoot with
    stepperGripper := { currentPos := 1, targetPos := 1 }
    lastCheck := 100
    lastPosition := 1
    issued := [(stepperGripper, Command.moveTo 1), (stepperGripper, Command.run)] }

/-- Surroundings of a move with the X limit switch tripped at the pre-move
check. -/
def xSwitchTripped : MoveEnv :=
  { moveEnvOf [tickAt 1 100 Level.HIGH] with
    digitalRead := fun pin => if pin = X_LIMIT_PIN then Level.LOW else Level.HIGH }

/-- The initial value of the global `motorPos`. -/
def motorPosAtBoot : MotorPositions :=
  { xPos1 := 0, xPos4 := 0, zPos2 := 0, zPos3 := 0, zPos5 := 0,
    gripperPosA := 0, gripperPosB := 0, isValid := false }

/-- The initial value of the global `jogState`. -/
def jogStateAtBoot : JogState :=
  { xPos := 0, yPos := 0, zPos := 0, jogDistance := JOG_DEFAULT_DISTANCE, isJogging := false }

/-- Motor globals with X and Y standing at their safe positions and Z at its
own, nothing commanded. -/
def motorsAtSafe : Motors :=
  { motorsAtBoot with
    stepperX := { currentPos := 117500, targetPos := 117500 }
    stepperY := { currentPos := 117500, targetPos := 117500 }
    stepperZ := { currentPos := 125000, targetPos := 125000 } }

/-- Motor globals with Y at its safe position and everything else as at
power-up, so that X may move. -/
def motorsYSafe : Motors :=
  { motorsAtBoot with stepperY := { currentPos := 117500, targetPos := 117500 } }

/-- The passes of `n` steps upward from position `c` at one step per pass and
per millisecond (position `p` is reached at `p` ms), with no driver fault and
no switch tripped. -/
def stepsFrom : Nat → Nat → List Tick
  | _, 0 => []
  | c, n + 1 => tickAt ((c : Int) + 1) (c + 1) Level.HIGH :: stepsFrom (c + 1) n

/-- A move of 1000 steps upward from 0, one step per millisecond. -/
def thousandSteps : MoveEnv :=
  moveEnvOf (stepsFrom 0 1000)

/-- The first pass of a move: one step made by 100 ms, with bit 16 set in the
status word of every driver. -/
def faultAtFirstStep : Tick :=
  { tickAt 1 100 Level.HIGH with DRV_STATUS := fun _ => 0x00010000 }

/-- The documented defaults of the configuration, as the specification lists
them: target weight 0, tolerance 1.0, case quantity 0, vibratory speed 128,
settle time 1000, accuracy range 0.1. -/
def SpecConfigDefaults (c : SystemConfig) : Prop :=
  c.targetWeight = float32_0_0 ∧ c.tolerancePercentage = float32_1_0 ∧ c.caseQuantity = 0 ∧
  c.vibratorySpeed = 128 ∧ c.scaleSettleTime = 1000 ∧ c.accuracyRange = float32_0_1

instance SpecConfigDefaults.decidable (c : SystemConfig) : Decidable (SpecConfigDefaults c) := by
  unfold SpecConfigDefaults
  infer_instance

/-- A stored configuration whose checksum byte (1) does not match. -/
def staleConfig : SystemConfig :=
  { targetWeight := 0, tolerancePercentage := 0, caseQuantity := 3, vibratorySpeed := 200,
    scaleSettleTime := 500, accuracyRange := 0, continuousMode := true, primeMode := false,
    autoLearningEnabled := false, averagingEnabled := false, checksum := 1 }

/-- A gripper move back from 2 toward 0, started after `gripperTwoSteps`: the
first pass, at 300 ms, takes the gripper from 2 to 1. -/
def gripperStepsBack : MoveEnv :=
  moveEnvOf [tickAt 1 300 Level.HIGH]

/-- The seven fields of a stored record are within the bounds of their axes:
`xPos1`, `xPos4` in `[0, 235000]`, `zPos2`, `zPos3`, `zPos5` in `[0, 250000]`,
`gripperPosA`, `gripperPosB` in `[0, 1000]`. -/
def SpecPositionsInBounds (p : eeprom_manager.MotorPositions) : Prop :=
  (0 ≤ p.xPos1 ∧ p.xPos1 ≤ 235000) ∧ (0 ≤ p.xPos4 ∧ p.xPos4 ≤ 235000) ∧
  (0 ≤ p.zPos2 ∧ p.zPos2 ≤ 250000) ∧ (0 ≤ p.zPos3 ∧ p.zPos3 ≤ 250000) ∧
  (0 ≤ p.zPos5 ∧ p.zPos5 ≤ 250000) ∧
  (0 ≤ p.gripperPosA ∧ p.gripperPosA ≤ 1000) ∧ (0 ≤ p.gripperPosB ∧ p.gripperPosB ≤ 1000)

instance SpecPositionsInBounds.decidable (p : eeprom_manager.MotorPositions) :
    Decidable (SpecPositionsInBounds p) := by
  unfold SpecPositionsInBounds
  infer_instance

/-- An erased store of 1024 bytes (every cell 0xFF). -/
def erasedStore : EEPROMClass :=
  { data := fun _ => 255, length := 1024 }

/-- A calibrated record of motor positions. -/
def calibratedPositions : eeprom_manager.MotorPositions :=
  { xPos1 := 1000, xPos4 := 200000, zPos2 := 5000, zPos3 := 100000, zPos5 := 20000,
    gripperPosA := 0, gripperPosB := 800, isValid := true, checksum := 0 }

/-- A powder profile named with 32 letters `A` (byte 65). -/
def profileA : eeprom_manager.PowderProfile :=
  { name := List.replicate 32 65, multiplier := float32_1_0, rotationCount := 0,
    totalWeight := 0, isValid := true, checksum := 0 }

/-- The erased store after `saveMotorPositions(calibratedPositions)`. -/
def storeWithPositions : EEPROMClass :=
  (eeprom_manager.saveMotorPositions erasedStore calibratedPositions true).2

/-- Surroundings of a stop in which `stepper` still reads as running in each
of the 50 passes of the wait that are observed. -/
def stillRunning (stepper : Stepper) : StopEnv :=
  { restAt := fun _ => 0
    isRunning := List.replicate 50 (fun s => decide (s = stepper)) }

/-- The stalled gripper move `gripperStalls`, with the gripper still reading
as running throughout the wait of the abort. -/
def gripperStallsStillRunning : MoveEnv :=
  { gripperStalls with abortStop := stillRunning stepperGripper }

/-- A move of X whose first pass meets a driver fault (`faultAtFirstStep`),
with X still reading as running throughout the wait of the emergency stop. -/
def xFaultStillRunning : MoveEnv :=
  { moveEnvOf [faultAtFirstStep] with faultStop := stillRunning stepperX }

/-! ## Operational state machine -/

/-- C1: when the current state is Error, Paused or PrimeMode,
`canTransitionTo(t)` is true if and only if the target `t` is Idle. -/
theorem canTransitionTo_locked_iff_idle (s : SystemStatus) (t : SystemState)
    (hcur : s.currentState = STATE_ERROR ∨ s.currentState = STATE_PAUSED ∨
      s.currentState = STATE_PRIME_MODE) :
    canTransitionTo s t = true ↔ t = STATE_IDLE := by
  rcases hcur with h | h | h <;> simp [canTransitionTo, h]

theorem canTransitionTo_locked_iff_idle_witness :
    canTransitionTo { initSystemState with currentState := STATE_PAUSED } STATE_IDLE = true ↔
      STATE_IDLE = STATE_IDLE :=
  canTransitionTo_locked_iff_idle { initSystemState with currentState := STATE_PAUSED }
    STATE_IDLE (Or.inr (Or.inl rfl))

/-- C2: when the current state is Idle, `canTransitionTo(t)` is true for every
target except Error, Paused and PrimeMode, for which it is false, and
`updateSystemState` to one of these three leaves the status as it was. -/
theorem canTransitionTo_idle (s : SystemStatus) (t : SystemState) (millis : Nat)
    (hcur : s.currentState = STATE_IDLE) :
    (canTransitionTo s t = true ↔
      t ≠ STATE_ERROR ∧ t ≠ STATE_PAUSED ∧ t ≠ STATE_PRIME_MODE) ∧
    (canTransitionTo s t = false ↔
      t = STATE_ERROR ∨ t = STATE_PAUSED ∨ t = STATE_PRIME_MODE) ∧
    (t = STATE_ERROR ∨ t = STATE_PAUSED ∨ t = STATE_PRIME_MODE →
      updateSystemState s t millis = s) := by
  refine ⟨?_, ?_, ?_⟩
  · cases t <;> simp [canTransitionTo, hcur]
  · cases t <;> simp [canTransitionTo, hcur]
  · rintro (h | h | h) <;> simp [updateSystemState, canTransitionTo, hcur, h]

theorem canTransitionTo_idle_witness :
    canTransitionTo initSystemState STATE_HOMING = true ∧
    canTransitionTo initSystemState STATE_IDLE = true ∧
    canTransitionTo initSystemState STATE_ERROR = false ∧
    updateSystemState initSystemState STATE_ERROR 7 = initSystemState :=
  ⟨(canTransitionTo_idle initSystemState STATE_HOMING 7 rfl).1.2 (by decide),
   (canTransitionTo_idle initSystemState STATE_IDLE 7 rfl).1.2 (by decide),
   (canTransitionTo_idle initSystemState STATE_ERROR 7 rfl).2.1.2 (Or.inl rfl),
   (canTransitionTo_idle initSystemState STATE_ERROR 7 rfl).2.2 (Or.inl rfl)⟩

/-- C3: when the current state is one of the ten pipeline states,
`canTransitionTo(t)` is false for every target `t`, Idle included. -/
theorem canTransitionTo_pipeline_false (s : SystemStatus) (t : SystemState)
    (hcur : s.currentState ∈
      [STATE_HOMING, STATE_ZEROING_SCALE, STATE_LOADING_CASE, STATE_MOVING_TO_CASE,
       STATE_GRIPPING_CASE, STATE_MOVING_TO_SCALE, STATE_DROPPING_CASE,
       STATE_DISPENSING_POWDER, STATE_FINISHING_DROP, STATE_MOVING_TO_START]) :
    canTransitionTo s t = false := by
  simp only [List.mem_cons, List.mem_singleton, List.not_mem_nil, or_false] at hcur
  rcases hcur with h | h | h | h | h | h | h | h | h | h <;> simp [canTransitionTo, h]

theorem canTransitionTo_pipeline_false_witness :
    canTransitionTo { initSystemState with currentState := STATE_HOMING } STATE_IDLE = false :=
  canTransitionTo_pipeline_false { initSystemState with currentState := STATE_HOMING }
    STATE_IDLE (by decide)

/-- C4: `updateSystemState(t)` yields the status with `currentState = t` and
`lastOperationTime` set to the clock reading, every other field unchanged,
when `canTransitionTo(t)` holds, and yields the status unchanged otherwise. -/
theorem updateSystemState_installs_iff_legal (s : SystemStatus) (t : SystemState)
    (millis : Nat) :
    updateSystemState s t millis =
      if canTransitionTo s t = true then
        { s with currentState := t, lastOperationTime := millis }
      else s := by
  simp [updateSystemState, transitionTo]

/-! ## Stopping the actuators -/

theorem waitStopped_eq_some (m m' : Motors) (polls : List (Stepper → Bool))
    (h : waitStopped m polls = some m') : m' = m := by
  induction polls with
  | nil => simp [waitStopped] at h
  | cons p later ih =>
    unfold waitStopped at h
    split at h
    · exact ih h
    · exact (Option.some.inj h).symm

theorem waitStopped_of_settles (m : Motors) (polls : List (Stepper → Bool))
    (h : ∃ p ∈ polls, ∀ stepper : Stepper, p stepper = false) :
    waitStopped m polls = some m := by
  induction polls with
  | nil => simp at h
  | cons p later ih =>
    unfold waitStopped
    split
    · rcases h with ⟨q, hq, hall⟩
      rcases List.mem_cons.mp hq with rfl | hq
      · simp_all
      · exact ih ⟨q, hq, hall⟩
    · rfl

theorem waitStopped_of_not_settles (m : Motors) (polls : List (Stepper → Bool))
    (h : ¬ ∃ p ∈ polls, ∀ stepper : Stepper, p stepper = false) :
    waitStopped m polls = none := by
  induction polls with
  | nil => rfl
  | cons p later ih =>
    unfold waitStopped
    split
    · exact ih (fun ⟨q, hq, hall⟩ => h ⟨q, List.mem_cons_of_mem _ hq, hall⟩)
    · next hidle =>
      exfalso
      apply h
      refine ⟨p, List.mem_cons_self _ _, fun stepper => ?_⟩
      simp only [Bool.or_eq_true, not_or, Bool.not_eq_true] at hidle
      obtain ⟨⟨⟨⟨⟨h1, h2⟩, h3⟩, h4⟩, h5⟩, h6⟩ := hidle
      cases stepper <;> assumption

theorem stopCalls_issued (m : Motors) (restAt : Stepper → Int) :
    (stopCalls m restAt).issued = m.issued ++ sixStops := by
  simp [stopCalls, stop, Motors.set, sixStops]

theorem stopCalls_statics (m : Motors) (restAt : Stepper → Int) :
    (stopCalls m restAt).lastCheck = m.lastCheck ∧
    (stopCalls m restAt).lastPosition = m.lastPosition := by
  simp [stopCalls, stop, Motors.set]

theorem stopAllMotors_eq_some (m m' : Motors) (env : StopEnv)
    (h : stopAllMotors m env = some m') : m' = stopCalls m env.restAt :=
  waitStopped_eq_some _ _ _ h

theorem stopAllMotors_of_settles (m : Motors) (env : StopEnv) (h : env.settles) :
    stopAllMotors m env = some (stopCalls m env.restAt) :=
  waitStopped_of_settles _ _ h

theorem stopAllMotors_of_not_settles (m : Motors) (env : StopEnv) (h : ¬ env.settles) :
    stopAllMotors m env = none :=
  waitStopped_of_not_settles _ _ h

/-- C5, as amended: the `emergencyStop()` of `system_state.cpp`, from any
status, sets `isEmergencyStop`, state Error and the system-fault code, changes
no other status field and commands no actuator; the `emergencyStop()` of
`motor_control.cpp` issues a stop to each of the six actuators, in the order
X, Y, Z, gripper, case feeder, powder dropper, and once its wait ends returns
with the system status and the log unchanged. -/
theorem emergencyStop_two_halves (fw : Firmware) (env : StopEnv) (hwait : env.settles) :
    (fw.systemEmergencyStop.systemStatus =
        { fw.systemStatus with
          isEmergencyStop := true, currentState := STATE_ERROR,
          lastError := ERROR_SYSTEM_FAULT } ∧
      fw.systemEmergencyStop.motors = fw.motors) ∧
    (∃ after, fw.motorEmergencyStop env = some after ∧
      after.motors.issued = fw.motors.issued ++ sixStops ∧
      after.systemStatus = fw.systemStatus ∧ after.sdLog = fw.sdLog) := by
  refine ⟨⟨rfl, rfl⟩, ?_⟩
  refine ⟨{ fw with motors := stopCalls fw.motors env.restAt }, ?_, ?_, rfl, rfl⟩
  · simp [Firmware.motorEmergencyStop, motor_control.emergencyStop,
      stopAllMotors_of_settles _ _ hwait]
  · exact stopCalls_issued _ _

theorem emergencyStop_two_halves_witness :
    (firmwareAtBoot.systemEmergencyStop.systemStatus =
        { firmwareAtBoot.systemStatus with
          isEmergencyStop := true, currentState := STATE_ERROR,
          lastError := ERROR_SYSTEM_FAULT } ∧
      firmwareAtBoot.systemEmergencyStop.motors = firmwareAtBoot.motors) ∧
    (∃ after, firmwareAtBoot.motorEmergencyStop stopAtRest = some after ∧
      after.motors.issued = firmwareAtBoot.motors.issued ++ sixStops ∧
      after.systemStatus = firmwareAtBoot.systemStatus ∧
      after.sdLog = firmwareAtBoot.sdLog) :=
  emergencyStop_two_halves firmwareAtBoot stopAtRest
    ⟨fun _ => false, List.mem_singleton.mpr rfl, fun _ => rfl⟩

/-- C5 fails as stated for both definitions of `emergencyStop()`: at
power-up, the one of `system_state.cpp` reaches Error with the system-fault
code but issues no stop, and the one of `motor_control.cpp` stops the six
actuators but leaves the state Idle. -/
theorem emergencyStop_neither_does_both :
    ¬ SpecEmergencyStop firmwareAtBoot (some firmwareAtBoot.systemEmergencyStop) ∧
    ¬ SpecEmergencyStop firmwareAtBoot (firmwareAtBoot.motorEmergencyStop stopAtRest) := by
  constructor
  · rintro ⟨after, hafter, hstops, -, -⟩
    cases Option.some.inj hafter
    have := hstops stepperX
    simp [Firmware.systemEmergencyStop, firmwareAtBoot, motorsAtBoot] at this
  · rintro ⟨after, hafter, -, hstate, -⟩
    have hrun : firmwareAtBoot.motorEmergencyStop stopAtRest =
        some { firmwareAtBoot with
          motors := stopCalls firmwareAtBoot.motors stopAtRest.restAt } := by
      simp [Firmware.motorEmergencyStop, motor_control.emergencyStop,
        stopAllMotors, waitStopped, stopAtRest]
    rw [hrun] at hafter
    cases Option.some.inj hafter
    simp [firmwareAtBoot, initSystemState] at hstate

/-! ## Bounded moves -/

theorem isValidPosition_iff (stepper : Stepper) (targetPos : Int) :
    isValidPosition stepper targetPos = true ↔ specTravelRange stepper targetPos := by
  cases stepper <;>
    simp [isValidPosition, specTravelRange, X_MIN_POS, X_MAX_POS, Y_MIN_POS, Y_MAX_POS,
      Z_MIN_POS, Z_MAX_POS, GRIPPER_MIN_POS, GRIPPER_MAX_POS]

theorem get_set_same (m : Motors) (stepper : Stepper) (a : AccelStepper) :
    (m.set stepper a).get stepper = a := by
  cases stepper <;> rfl

theorem moveTo_target (m : Motors) (stepper : Stepper) (targetPos : Int) :
    ((moveTo m stepper targetPos).get stepper).targetPos = targetPos := by
  cases stepper <;> rfl

theorem run_get (m : Motors) (stepper : Stepper) (position : Int) :
    ((run m stepper position).get stepper).targetPos = (m.get stepper).targetPos ∧
    ((run m stepper position).get stepper).currentPos = position := by
  cases stepper <;> exact ⟨rfl, rfl⟩

theorem monitorMovement_true_get (m m' : Motors) (stepper : Stepper) (t : Tick)
    (faultStop : StopEnv) (h : monitorMovement m stepper t faultStop = some (true, m')) :
    m'.get stepper = m.get stepper := by
  unfold monitorMovement at h
  split at h
  · split at h
    · simp at h
    · split at h
      · cases hs : motor_control.emergencyStop m faultStop <;> simp [hs] at h
      · simp only [Option.some.injEq, Prod.mk.injEq, true_and] at h
        subst h
        cases stepper <;> rfl
  · simp only [Option.some.injEq, Prod.mk.injEq, true_and] at h
    subst h
    rfl

theorem moveLoop_true (stepper : Stepper) (faultStop abortStop : StopEnv)
    (ticks : List Tick) (m m' : Motors)
    (h : moveLoop stepper faultStop abortStop ticks m = some (true, m')) :
    distanceToGo m' stepper = 0 ∧ (m'.get stepper).targetPos = (m.get stepper).targetPos := by
  induction ticks generalizing m with
  | nil =>
    rw [moveLoop] at h
    split at h
    · next h0 =>
      cases Option.some.inj h
      exact ⟨h0, rfl⟩
    · simp at h
  | cons t later ih =>
    rw [moveLoop] at h
    split at h
    · next h0 =>
      cases Option.some.inj h
      exact ⟨h0, rfl⟩
    · split at h
      · simp at h
      · next m2 hmon =>
        obtain ⟨h1, h2⟩ := ih m2 h
        refine ⟨h1, ?_⟩
        rw [h2, monitorMovement_true_get _ _ _ _ _ hmon]
        exact (run_get m stepper t.position).1
      · next m2 hmon =>
        cases hs : stopAllMotors m2 abortStop <;> simp [hs] at h

/-- C6: for each of X, Y, Z and the gripper, `isValidPosition` is true exactly
for the targets inside the axis's closed range, and for a target outside it
`moveToPosition` returns false with nothing commanded and nothing changed. -/
theorem moveToPosition_rejects_out_of_range (m : Motors) (stepper : Stepper)
    (targetPos : Int) (env : MoveEnv)
    (haxis : stepper = stepperX ∨ stepper = stepperY ∨ stepper = stepperZ ∨
      stepper = stepperGripper) :
    (isValidPosition stepper targetPos = true ↔ specTravelRange stepper targetPos) ∧
    (¬ specTravelRange stepper targetPos →
      moveToPosition m stepper targetPos env = some (false, m)) := by
  have hiff : isValidPosition stepper targetPos = true ↔ specTravelRange stepper targetPos := by
    rcases haxis with rfl | rfl | rfl | rfl <;>
      simp [isValidPosition, specTravelRange, X_MIN_POS, X_MAX_POS, Y_MIN_POS, Y_MAX_POS,
        Z_MIN_POS, Z_MAX_POS, GRIPPER_MIN_POS, GRIPPER_MAX_POS]
  refine ⟨hiff, fun hout => ?_⟩
  have hinv : isValidPosition stepper targetPos = false := by
    cases hv : isValidPosition stepper targetPos
    · rfl
    · exact absurd (hiff.mp hv) hout
  simp [moveToPosition, hinv]

theorem moveToPosition_rejects_out_of_range_witness :
    moveToPosition motorsAtBoot stepperZ 250001 (moveEnvOf []) = some (false, motorsAtBoot) :=
  (moveToPosition_rejects_out_of_range motorsAtBoot stepperZ 250001 (moveEnvOf [])
    (Or.inr (Or.inr (Or.inl rfl)))).2 (by decide)

/-- C7: for an in-bounds target, `moveToPosition` returns false and leaves the
motor state (commanded targets included) unchanged when the axis is X and Y
stands below `Y_SAFE_POSITION`, or the axis is Y or Z and X stands below
`X_SAFE_POSITION`. -/
theorem moveToPosition_refuses_unsafe (m : Motors) (stepper : Stepper) (targetPos : Int)
    (env : MoveEnv) (hin : specTravelRange stepper targetPos)
    (hbelow :
      (stepper = stepperX ∧ currentPosition m stepperY < Y_SAFE_POSITION) ∨
      (stepper = stepperY ∧ currentPosition m stepperX < X_SAFE_POSITION) ∨
      (stepper = stepperZ ∧ currentPosition m stepperX < X_SAFE_POSITION)) :
    moveToPosition m stepper targetPos env = some (false, m) := by
  have hobs : checkForObstacles m stepper targetPos env.digitalRead = true := by
    unfold checkForObstacles
    rcases hbelow with ⟨rfl, h⟩ | ⟨rfl, h⟩ | ⟨rfl, h⟩ <;> simp [h]
  simp [moveToPosition, (isValidPosition_iff stepper targetPos).mpr hin, hobs]

theorem moveToPosition_refuses_unsafe_witness :
    moveToPosition motorsAtBoot stepperX 1000 (moveEnvOf [tickAt 1 100 Level.HIGH]) =
      some (false, motorsAtBoot) :=
  moveToPosition_refuses_unsafe motorsAtBoot stepperX 1000
    (moveEnvOf [tickAt 1 100 Level.HIGH]) (by decide) (Or.inl ⟨rfl, by decide⟩)

/-- C8: if `moveToPosition` returns true, the axis's current position on
return equals the target and lies within the axis's range. -/
theorem moveToPosition_true_at_target (m m' : Motors) (stepper : Stepper) (targetPos : Int)
    (env : MoveEnv) (h : moveToPosition m stepper targetPos env = some (true, m')) :
    currentPosition m' stepper = targetPos ∧
    specTravelRange stepper (currentPosition m' stepper) := by
  unfold moveToPosition at h
  split at h
  · simp at h
  · next hvalid =>
    split at h
    · simp at h
    · obtain ⟨hgo, htarget⟩ := moveLoop_true _ _ _ _ _ _ h
      rw [moveTo_target] at htarget
      have hpos : currentPosition m' stepper = targetPos := by
        unfold distanceToGo at hgo
        unfold currentPosition
        omega
      refine ⟨hpos, ?_⟩
      rw [hpos]
      apply (isValidPosition_iff stepper targetPos).mp
      simpa using hvalid

theorem moveToPosition_true_at_target_witness :
    moveToPosition motorsAtBoot stepperGripper 2 gripperTwoSteps =
      some (true, afterGripperTwoSteps) ∧
    currentPosition afterGripperTwoSteps stepperGripper = 2 ∧
    specTravelRange stepperGripper (currentPosition afterGripperTwoSteps stepperGripper) :=
  ⟨by decide,
   moveToPosition_true_at_target motorsAtBoot afterGripperTwoSteps stepperGripper 2
    gripperTwoSteps (by decide)⟩

/-! ## Monitoring an outstanding move -/

theorem moveLoop_append (stepper : Stepper) (faultStop abortStop : StopEnv)
    (earlier rest : List Tick) (m0 m : Motors)
    (h : loopReaches stepper faultStop earlier m0 = some m) :
    moveLoop stepper faultStop abortStop (earlier ++ rest) m0 =
      moveLoop stepper faultStop abortStop rest m := by
  induction earlier generalizing m0 with
  | nil =>
    rw [loopReaches] at h
    cases Option.some.inj h
    rfl
  | cons t later ih =>
    rw [loopReaches] at h
    rw [List.cons_append, moveLoop]
    split at h
    · simp at h
    · next hgo =>
      rw [if_neg hgo]
      split at h
      · next m2 hmon =>
        rw [hmon]
        exact ih m2 h
      · simp at h

theorem monitorMovement_stall (m : Motors) (stepper : Stepper) (t : Tick)
    (faultStop : StopEnv) (hdue : 100 ≤ elapsed t.millis m.lastCheck)
    (hsame : currentPosition m stepper = m.lastPosition) :
    monitorMovement m stepper t faultStop = some (false, m) := by
  unfold monitorMovement
  rw [if_pos (by simpa [SAFE_POSITION_CHECK_INTERVAL] using hdue), if_pos hsame]

theorem moveLoop_ignores_pins (stepper : Stepper) (faultStop abortStop : StopEnv)
    (pins : Tick → Nat → Level) (ticks : List Tick) (m : Motors) :
    moveLoop stepper faultStop abortStop
        (ticks.map (fun t => { t with digitalRead := pins t })) m =
      moveLoop stepper faultStop abortStop ticks m := by
  induction ticks generalizing m with
  | nil => rfl
  | cons t later ih =>
    rw [List.map_cons, moveLoop, moveLoop]
    split
    · rfl
    · have hmon : monitorMovement (run m stepper t.position) stepper
          { t with digitalRead := pins t } faultStop =
          monitorMovement (run m stepper t.position) stepper t faultStop := rfl
      simp only [hmon]
      split
      · rfl
      · exact ih _
      · rfl

/-- C9, as amended: during an outstanding move, when a 100 ms sample finds the
axis at the position recorded at the previous sample, `monitorMovement`
returns false and `moveToPosition` goes on to `stopAllMotors()`: it never
returns true for that move; it returns false, with a stop issued to each of
the six actuators, once the wait of `stopAllMotors()` for every actuator to
read as not running has ended, and it does not return while that wait does
not end. -/
theorem moveToPosition_stall_aborts (m0 m : Motors) (stepper : Stepper) (targetPos : Int)
    (env : MoveEnv) (earlier : List Tick) (t : Tick) (later : List Tick)
    (hvalid : isValidPosition stepper targetPos = true)
    (hclear : checkForObstacles m0 stepper targetPos env.digitalRead = false)
    (hticks : env.ticks = earlier ++ t :: later)
    (hreach : loopReaches stepper env.faultStop earlier (moveTo m0 stepper targetPos) = some m)
    (hout : distanceToGo m stepper ≠ 0)
    (hdue : 100 ≤ elapsed t.millis m.lastCheck)
    (hsame : t.position = m.lastPosition) :
    monitorMovement (run m stepper t.position) stepper t env.faultStop =
      some (false, run m stepper t.position) ∧
    moveToPosition m0 stepper targetPos env =
      (stopAllMotors (run m stepper t.position) env.abortStop).map (fun m' => (false, m')) ∧
    (∀ m', moveToPosition m0 stepper targetPos env ≠ some (true, m')) ∧
    (env.abortStop.settles →
      ∃ m', moveToPosition m0 stepper targetPos env = some (false, m') ∧
        m'.issued = (run m stepper t.position).issued ++ sixStops) ∧
    (¬ env.abortStop.settles → moveToPosition m0 stepper targetPos env = none) := by
  have hmon : monitorMovement (run m stepper t.position) stepper t env.faultStop =
      some (false, run m stepper t.position) := by
    apply monitorMovement_stall
    · cases stepper <;> exact hdue
    · rw [currentPosition, (run_get m stepper t.position).2]
      cases stepper <;> exact hsame
  have hmove : moveToPosition m0 stepper targetPos env =
      (stopAllMotors (run m stepper t.position) env.abortStop).map
        (fun m' => (false, m')) := by
    unfold moveToPosition
    simp only [hvalid, hclear, hticks, Bool.not_true, Bool.false_eq_true, if_false]
    rw [moveLoop_append _ _ _ _ _ _ _ hreach, moveLoop, if_neg hout, hmon]
  refine ⟨hmon, hmove, ?_, ?_, ?_⟩
  · intro m' h
    rw [hmove] at h
    cases hs : stopAllMotors (run m stepper t.position) env.abortStop <;> simp [hs] at h
  · intro hsettles
    refine ⟨stopCalls (run m stepper t.position) env.abortStop.restAt, ?_, ?_⟩
    · rw [hmove, stopAllMotors_of_settles _ _ hsettles]
      rfl
    · exact stopCalls_issued _ _
  · intro hnever
    rw [hmove, stopAllMotors_of_not_settles _ _ hnever]
    rfl

theorem moveToPosition_stall_aborts_witness :
    ∃ m', moveToPosition motorsAtBoot stepperGripper 5 gripperStalls = some (false, m') ∧
      m'.issued = (run gripperAfterFirstPass stepperGripper 1).issued ++ sixStops :=
  (moveToPosition_stall_aborts motorsAtBoot gripperAfterFirstPass stepperGripper 5
    gripperStalls [tickAt 1 100 Level.HIGH] (tickAt 1 200 Level.HIGH) []
    (by decide) (by decide) rfl (by decide) (by decide) (by decide) rfl).2.2.2.1
    ⟨fun _ => false, List.mem_singleton.mpr rfl, fun _ => rfl⟩

/-- C9 fails as stated: in the gripper move `gripperStallsStillRunning` the
sample of 200 ms finds the gripper at the position recorded at 100 ms and
`monitorMovement` returns false, but the gripper reads as running in every
pass of the wait of `stopAllMotors()`, and `moveToPosition` returns neither
false nor anything else. -/
theorem stall_abort_does_not_return :
    loopReaches stepperGripper gripperStallsStillRunning.faultStop [tickAt 1 100 Level.HIGH]
        (moveTo motorsAtBoot stepperGripper 5) = some gripperAfterFirstPass ∧
    distanceToGo gripperAfterFirstPass stepperGripper ≠ 0 ∧
    100 ≤ elapsed (tickAt 1 200 Level.HIGH).millis gripperAfterFirstPass.lastCheck ∧
    (tickAt 1 200 Level.HIGH).position = gripperAfterFirstPass.lastPosition ∧
    monitorMovement (run gripperAfterFirstPass stepperGripper 1) stepperGripper
        (tickAt 1 200 Level.HIGH) gripperStallsStillRunning.faultStop =
      some (false, run gripperAfterFirstPass stepperGripper 1) ∧
    moveToPosition motorsAtBoot stepperGripper 5 gripperStallsStillRunning = none := by
  decide

/-- C10, as amended: the limit switches are read once, before the move is
commanded: if any of the five reads tripped (LOW) then, `moveToPosition`
returns false with nothing commanded and nothing changed.  While the move is
outstanding they are not read: neither a sample of `monitorMovement` nor the
outcome of the move depends on the pin levels during the passes of the loop. -/
theorem limit_switches_read_before_move_only (m : Motors) (stepper : Stepper)
    (targetPos : Int) (env : MoveEnv) (pins : Tick → Nat → Level) :
    ((∃ pin ∈ [X_LIMIT_PIN, Y_LIMIT_PIN, Z_LIMIT_PIN, GRIPPER_LIMIT_PIN,
        CASE_FEEDER_LIMIT_PIN], env.digitalRead pin = Level.LOW) →
      moveToPosition m stepper targetPos env = some (false, m)) ∧
    (∀ t : Tick, monitorMovement m stepper { t with digitalRead := pins t } env.faultStop =
      monitorMovement m stepper t env.faultStop) ∧
    moveToPosition m stepper targetPos
        { env with ticks := env.ticks.map (fun t => { t with digitalRead := pins t }) } =
      moveToPosition m stepper targetPos env := by
  refine ⟨?_, fun _ => rfl, ?_⟩
  · rintro ⟨pin, hpin, hlow⟩
    have hsw : checkLimitSwitches env.digitalRead = true := by
      simp only [List.mem_cons, List.mem_singleton, List.not_mem_nil, or_false] at hpin
      unfold checkLimitSwitches
      rcases hpin with rfl | rfl | rfl | rfl | rfl <;> simp [hlow]
    unfold moveToPosition
    split
    · rfl
    · simp [checkForObstacles, hsw]
  · unfold moveToPosition
    simp only [moveLoop_ignores_pins]

theorem limit_switches_read_before_move_only_witness :
    moveToPosition motorsAtBoot stepperGripper 1 xSwitchTripped = some (false, motorsAtBoot) :=
  (limit_switches_read_before_move_only motorsAtBoot stepperGripper 1 xSwitchTripped
    (fun t => t.digitalRead)).1 ⟨X_LIMIT_PIN, by decide, rfl⟩

/-- C10 fails as stated: in the gripper move `gripperTrippedMidMove` the move
is outstanding, the 100 ms sample is due and every limit switch reads tripped
in that pass, yet `moveToPosition` returns true and no stop is issued. -/
theorem limit_switch_tripped_midmove_not_aborted :
    distanceToGo (moveTo motorsAtBoot stepperGripper 1) stepperGripper ≠ 0 ∧
    (∀ t ∈ gripperTrippedMidMove.ticks,
      100 ≤ elapsed t.millis motorsAtBoot.lastCheck ∧
      checkLimitSwitches t.digitalRead = true) ∧
    moveToPosition motorsAtBoot stepperGripper 1 gripperTrippedMidMove =
      some (true, afterGripperTrippedMidMove) ∧
    (∀ stepper : Stepper, (stepper, Command.stop) ∉ afterGripperTrippedMidMove.issued) := by
  refine ⟨by decide, ?_, by decide, ?_⟩
  · intro t ht
    simp only [gripperTrippedMidMove, moveEnvOf, List.mem_singleton] at ht
    subst ht
    exact ⟨by decide, by decide⟩
  · intro stepper
    cases stepper <;> decide


/-! ## Driver faults -/

theorem fault_bit_iff (x : Nat) : x &&& 0x00010000 ≠ 0 ↔ x.testBit 16 = true := by
  have h16 : (0x00010000 : Nat) = 2 ^ 16 := by norm_num
  rw [h16]
  constructor
  · intro hne
    by_contra hbit
    apply hne
    apply Nat.eq_of_testBit_eq
    intro i
    rw [Nat.testBit_and, Nat.testBit_two_pow, Nat.zero_testBit]
    by_cases hi : 16 = i
    · subst hi
      simp [hbit]
    · simp [hi]
  · intro hbit h0
    have h : (x &&& 2 ^ 16).testBit 16 = false := by
      rw [h0]
      exact Nat.zero_testBit 16
    rw [Nat.testBit_and, hbit, Nat.testBit_two_pow_self] at h
    exact absurd h (by decide)

/-- C11, as amended: for X, Y and Z, when a 100 ms sample is taken during a
move, the position has changed and bit 16 of that axis's driver status word
is set, `monitorMovement` calls the `emergencyStop()` of `motor_control.cpp`
and returns false once the wait of that call has ended; `moveToPosition` then
calls `stopAllMotors()` and returns false once this second wait has ended,
and never returns true.  While the first wait does not end neither function
returns, and while the second does not end `moveToPosition` does not return.
For the gripper, the case feeder and the powder dropper the result does not
depend on any driver status word and `emergencyStop()` is never called: such
a sample lets the move go on. -/
theorem monitorMovement_driver_fault (mh : Motors) (stepper : Stepper) (t : Tick)
    (later : List Tick) (faultStop abortStop : StopEnv) :
    ((stepper = stepperX ∨ stepper = stepperY ∨ stepper = stepperZ) →
      distanceToGo mh stepper ≠ 0 →
      100 ≤ elapsed t.millis mh.lastCheck →
      t.position ≠ mh.lastPosition →
      (t.DRV_STATUS stepper).testBit 16 = true →
      monitorMovement (run mh stepper t.position) stepper t faultStop =
        (motor_control.emergencyStop (run mh stepper t.position) faultStop).map
          (fun m => (false, m)) ∧
      moveLoop stepper faultStop abortStop (t :: later) mh =
        (motor_control.emergencyStop (run mh stepper t.position) faultStop).bind
          (fun m => (stopAllMotors m abortStop).map (fun m => (false, m))) ∧
      (∀ m', moveLoop stepper faultStop abortStop (t :: later) mh ≠ some (true, m')) ∧
      (faultStop.settles →
        monitorMovement (run mh stepper t.position) stepper t faultStop =
          some (false, stopCalls (run mh stepper t.position) faultStop.restAt) ∧
        (stopCalls (run mh stepper t.position) faultStop.restAt).issued =
          mh.issued ++ [(stepper, Command.run)] ++ sixStops ∧
        (abortStop.settles →
          moveLoop stepper faultStop abortStop (t :: later) mh =
            some (false, stopCalls (stopCalls (run mh stepper t.position) faultStop.restAt)
              abortStop.restAt)) ∧
        (¬ abortStop.settles →
          moveLoop stepper faultStop abortStop (t :: later) mh = none)) ∧
      (¬ faultStop.settles →
        monitorMovement (run mh stepper t.position) stepper t faultStop = none ∧
        moveLoop stepper faultStop abortStop (t :: later) mh = none)) ∧
    ((stepper = stepperGripper ∨ stepper = stepperCaseFeeder ∨
        stepper = stepperPowderDropper) →
      (∀ status : Stepper → Nat,
        monitorMovement mh stepper { t with DRV_STATUS := status } faultStop =
          monitorMovement mh stepper t faultStop) ∧
      (∃ r, monitorMovement mh stepper t faultStop = some r ∧ r.2.issued = mh.issued) ∧
      (100 ≤ elapsed t.millis mh.lastCheck → currentPosition mh stepper ≠ mh.lastPosition →
        monitorMovement mh stepper t faultStop =
          some (true, { mh with lastPosition := currentPosition mh stepper,
                                lastCheck := t.millisStored }))) := by
  constructor
  · intro haxis hout hdue hmoved hbit
    have hdrv : drvStatus stepper t.DRV_STATUS = t.DRV_STATUS stepper := by
      rcases haxis with rfl | rfl | rfl <;> rfl
    have hmon : monitorMovement (run mh stepper t.position) stepper t faultStop =
        (motor_control.emergencyStop (run mh stepper t.position) faultStop).map
          (fun m => (false, m)) := by
      have hcur : currentPosition (run mh stepper t.position) stepper = t.position :=
        (run_get mh stepper t.position).2
      have hlast : (run mh stepper t.position).lastPosition = mh.lastPosition := by
        cases stepper <;> rfl
      have hchk : (run mh stepper t.position).lastCheck = mh.lastCheck := by
        cases stepper <;> rfl
      unfold monitorMovement
      rw [hchk, hcur, hlast, hdrv,
        if_pos (by simpa [SAFE_POSITION_CHECK_INTERVAL] using hdue), if_neg hmoved,
        if_pos ((fault_bit_iff _).mpr hbit)]
    have hloop : moveLoop stepper faultStop abortStop (t :: later) mh =
        (motor_control.emergencyStop (run mh stepper t.position) faultStop).bind
          (fun m => (stopAllMotors m abortStop).map (fun m => (false, m))) := by
      rw [moveLoop, if_neg hout, hmon]
      cases motor_control.emergencyStop (run mh stepper t.position) faultStop <;> rfl
    refine ⟨hmon, hloop, ?_, fun hfs => ?_, fun hnever => ?_⟩
    · intro m' h
      rw [hloop] at h
      cases h1 : motor_control.emergencyStop (run mh stepper t.position) faultStop with
      | none => simp [h1] at h
      | some m1 =>
        cases h2 : stopAllMotors m1 abortStop <;> simp [h1, h2] at h
    · have hstop : motor_control.emergencyStop (run mh stepper t.position) faultStop =
          some (stopCalls (run mh stepper t.position) faultStop.restAt) :=
        stopAllMotors_of_settles _ _ hfs
      refine ⟨by rw [hmon, hstop]; rfl, ?_, fun hrest => ?_, fun hnorest => ?_⟩
      · rw [stopCalls_issued]
        cases stepper <;> rfl
      · rw [hloop, hstop, Option.some_bind, stopAllMotors_of_settles _ _ hrest]
        rfl
      · rw [hloop, hstop, Option.some_bind, stopAllMotors_of_not_settles _ _ hnorest]
        rfl
    · have hstop : motor_control.emergencyStop (run mh stepper t.position) faultStop = none :=
        stopAllMotors_of_not_settles _ _ hnever
      exact ⟨by rw [hmon, hstop]; rfl, by rw [hloop, hstop]; rfl⟩
  · intro haxis
    have hdrv : ∀ status : Stepper → Nat, drvStatus stepper status = 0 := by
      intro status
      rcases haxis with rfl | rfl | rfl <;> rfl
    have hform : ∀ t' : Tick, monitorMovement mh stepper t' faultStop =
        if elapsed t'.millis mh.lastCheck ≥ SAFE_POSITION_CHECK_INTERVAL then
          if currentPosition mh stepper = mh.lastPosition then some (false, mh)
          else some (true, { mh with lastPosition := currentPosition mh stepper,
                                     lastCheck := t'.millisStored })
        else some (true, mh) := by
      intro t'
      unfold monitorMovement
      simp [hdrv]
    refine ⟨fun status => ?_, ?_, fun hdue hmoved => ?_⟩
    · rw [hform, hform]
    · rw [hform]
      split
      · split
        · exact ⟨_, rfl, rfl⟩
        · exact ⟨_, rfl, rfl⟩
      · exact ⟨_, rfl, rfl⟩
    · rw [hform, if_pos (by simpa [SAFE_POSITION_CHECK_INTERVAL] using hdue), if_neg hmoved]


theorem monitorMovement_driver_fault_witness :
    monitorMovement (run (moveTo motorsYSafe stepperX 5) stepperX 1) stepperX faultAtFirstStep
        stopAtRest =
      some (false, stopCalls (run (moveTo motorsYSafe stepperX 5) stepperX 1) stopAtRest.restAt) :=
  (((monitorMovement_driver_fault (moveTo motorsYSafe stepperX 5) stepperX faultAtFirstStep []
    stopAtRest stopAtRest).1 (Or.inl rfl) (by decide) (by decide) (by decide)
    (by decide)).2.2.2.1
    ⟨fun _ => false, List.mem_singleton.mpr rfl, fun _ => rfl⟩).1

/-- C11 fails as stated: in the move of X `xFaultStillRunning` the first pass
is a due sample with a changed position and bit 16 set in the status word of
the X driver, but X reads as running in every pass of the wait of
`emergencyStop()`: `monitorMovement` does not return false, and neither it
nor `moveToPosition` returns anything. -/
theorem driver_fault_stop_does_not_return :
    distanceToGo (moveTo motorsYSafe stepperX 5) stepperX ≠ 0 ∧
    100 ≤ elapsed faultAtFirstStep.millis (moveTo motorsYSafe stepperX 5).lastCheck ∧
    faultAtFirstStep.position ≠ (moveTo motorsYSafe stepperX 5).lastPosition ∧
    (faultAtFirstStep.DRV_STATUS stepperX).testBit 16 = true ∧
    monitorMovement (run (moveTo motorsYSafe stepperX 5) stepperX faultAtFirstStep.position)
        stepperX faultAtFirstStep xFaultStillRunning.faultStop = none ∧
    moveToPosition motorsYSafe stepperX 5 xFaultStillRunning = none := by
  decide

/-! ## Safe positions and jogging -/

/-- C12: `resetMotorsToSafePositions` makes three `moveToPosition` calls, Z to
`Z_SAFE_POSITION` (125000), then X to `X_SAFE_POSITION` (117500), then Y to
`Y_SAFE_POSITION` (117500), each on the state the previous call left and
whatever the earlier calls returned, and returns true if and only if all
three returned true. -/
theorem resetMotorsToSafePositions_three_moves (m m1 m2 m3 : Motors)
    (envZ envX envY : MoveEnv) (movedZ movedX movedY : Bool)
    (hZ : moveToPosition m stepperZ 125000 envZ = some (movedZ, m1))
    (hX : moveToPosition m1 stepperX 117500 envX = some (movedX, m2))
    (hY : moveToPosition m2 stepperY 117500 envY = some (movedY, m3)) :
    resetMotorsToSafePositions m envZ envX envY = some (movedZ && movedX && movedY, m3) ∧
    ((movedZ && movedX && movedY) = true ↔
      movedZ = true ∧ movedX = true ∧ movedY = true) := by
  constructor
  · unfold resetMotorsToSafePositions
    simp only [Z_SAFE_POSITION, X_SAFE_POSITION, Y_SAFE_POSITION, hZ, hX, hY]
    cases movedZ <;> cases movedX <;> cases movedY <;> rfl
  · simp [and_assoc]

theorem resetMotorsToSafePositions_three_moves_witness :
    resetMotorsToSafePositions motorsAtSafe (moveEnvOf []) (moveEnvOf []) (moveEnvOf []) =
      some (true && true && true,
        moveTo (moveTo (moveTo motorsAtSafe stepperZ 125000) stepperX 117500)
          stepperY 117500) :=
  (resetMotorsToSafePositions_three_moves motorsAtSafe
    (moveTo motorsAtSafe stepperZ 125000)
    (moveTo (moveTo motorsAtSafe stepperZ 125000) stepperX 117500)
    (moveTo (moveTo (moveTo motorsAtSafe stepperZ 125000) stepperX 117500) stepperY 117500)
    (moveEnvOf []) (moveEnvOf []) (moveEnvOf []) true true true
    (by decide) (by decide) (by decide)).1

theorem wrapLong_add_wrapLong (a b : Int) : wrapLong (a + wrapLong b) = wrapLong (a + b) := by
  unfold wrapLong
  omega

theorem wrapLong_of_representable (x : Int) (hlo : -2147483648 ≤ x) (hhi : x ≤ 2147483647) :
    wrapLong x = x := by
  unfold wrapLong
  omega

theorem specTravelRange_representable (stepper : Stepper) (p : Int)
    (h : specTravelRange stepper p) : -2147483648 ≤ p ∧ p ≤ 2147483647 := by
  cases stepper <;> simp only [specTravelRange] at h <;> omega

theorem jogging_flag (jogState : JogState) :
    (if (!jogState.isJogging) = true then { jogState with isJogging := true } else jogState) =
      { jogState with isJogging := true } := by
  cases jogState with
  | mk xPos yPos zPos jogDistance isJogging => cases isJogging <;> rfl


theorem handleJogMovement_valid (jogState : JogState) (m : Motors) (axis direction : Int)
    (env : MoveEnv) (stepper : Stepper) (currentPos : JogState → Int)
    (assign : JogState → Int → JogState) (target : Int)
    (hsel : (if axis = 0 then
          some (stepperX, JogState.xPos, fun (j : JogState) (v : Int) => { j with xPos := v })
        else if axis = 1 then
          some (stepperY, JogState.yPos, fun (j : JogState) (v : Int) => { j with yPos := v })
        else if axis = 2 then
          some (stepperZ, JogState.zPos, fun (j : JogState) (v : Int) => { j with zPos := v })
        else none) = some (stepper, currentPos, assign))
    (htarget : wrapLong (currentPos { jogState with isJogging := true } +
      wrapLong (direction * jogState.jogDistance)) = target) :
    handleJogMovement jogState m axis direction env =
      if isValidPosition stepper target = true then
        (moveToPosition m stepper target env).map
          (fun r => (assign { jogState with isJogging := true } target, r.2))
      else some ({ jogState with isJogging := true }, m) := by
  unfold handleJogMovement
  simp only [jogging_flag, hsel, htarget]
  split
  · cases moveToPosition m stepper target env <;> rfl
  · rfl

/-- C13: for jog axis X, Y or Z and any direction (+1 and -1 among them),
`handleJogMovement` takes the target `cursor[axis] + direction * jogDistance`;
when it lies within the bounds of the axis, the handler runs
`moveToPosition(axis, target)` and, once that call returns, sets the cursor of
the axis to the target (and `isJogging` to true). -/
theorem handleJogMovement_in_bounds (jogState : JogState) (m : Motors) (direction : Int)
    (env : MoveEnv) :
    (specTravelRange stepperX (jogState.xPos + direction * jogState.jogDistance) →
      handleJogMovement jogState m 0 direction env =
        (moveToPosition m stepperX (jogState.xPos + direction * jogState.jogDistance) env).map
          (fun r => ({ jogState with
            isJogging := true,
            xPos := jogState.xPos + direction * jogState.jogDistance }, r.2))) ∧
    (specTravelRange stepperY (jogState.yPos + direction * jogState.jogDistance) →
      handleJogMovement jogState m 1 direction env =
        (moveToPosition m stepperY (jogState.yPos + direction * jogState.jogDistance) env).map
          (fun r => ({ jogState with
            isJogging := true,
            yPos := jogState.yPos + direction * jogState.jogDistance }, r.2))) ∧
    (specTravelRange stepperZ (jogState.zPos + direction * jogState.jogDistance) →
      handleJogMovement jogState m 2 direction env =
        (moveToPosition m stepperZ (jogState.zPos + direction * jogState.jogDistance) env).map
          (fun r => ({ jogState with
            isJogging := true,
            zPos := jogState.zPos + direction * jogState.jogDistance }, r.2))) := by
  refine ⟨fun hin => ?_, fun hin => ?_, fun hin => ?_⟩
  · have hrep := specTravelRange_representable _ _ hin
    rw [handleJogMovement_valid jogState m 0 direction env stepperX JogState.xPos _
      (jogState.xPos + direction * jogState.jogDistance) rfl
      (by rw [wrapLong_add_wrapLong]; exact wrapLong_of_representable _ hrep.1 hrep.2),
      if_pos ((isValidPosition_iff _ _).mpr hin)]
  · have hrep := specTravelRange_representable _ _ hin
    rw [handleJogMovement_valid jogState m 1 direction env stepperY JogState.yPos _
      (jogState.yPos + direction * jogState.jogDistance) rfl
      (by rw [wrapLong_add_wrapLong]; exact wrapLong_of_representable _ hrep.1 hrep.2),
      if_pos ((isValidPosition_iff _ _).mpr hin)]
  · have hrep := specTravelRange_representable _ _ hin
    rw [handleJogMovement_valid jogState m 2 direction env stepperZ JogState.zPos _
      (jogState.zPos + direction * jogState.jogDistance) rfl
      (by rw [wrapLong_add_wrapLong]; exact wrapLong_of_representable _ hrep.1 hrep.2),
      if_pos ((isValidPosition_iff _ _).mpr hin)]

/-- C14: for jog axis X, Y or Z, when `cursor[axis] + direction * jogDistance`
(a value a `long` can hold) falls outside the bounds of the axis,
`handleJogMovement` issues no move and leaves the jog cursors and the motor
state, axis positions included, unchanged; it only sets `isJogging`. -/
theorem handleJogMovement_out_of_bounds (jogState : JogState) (m : Motors) (direction : Int)
    (env : MoveEnv) :
    (¬ specTravelRange stepperX (jogState.xPos + direction * jogState.jogDistance) →
      -2147483648 ≤ jogState.xPos + direction * jogState.jogDistance →
      jogState.xPos + direction * jogState.jogDistance ≤ 2147483647 →
      handleJogMovement jogState m 0 direction env =
        some ({ jogState with isJogging := true }, m)) ∧
    (¬ specTravelRange stepperY (jogState.yPos + direction * jogState.jogDistance) →
      -2147483648 ≤ jogState.yPos + direction * jogState.jogDistance →
      jogState.yPos + direction * jogState.jogDistance ≤ 2147483647 →
      handleJogMovement jogState m 1 direction env =
        some ({ jogState with isJogging := true }, m)) ∧
    (¬ specTravelRange stepperZ (jogState.zPos + direction * jogState.jogDistance) →
      -2147483648 ≤ jogState.zPos + direction * jogState.jogDistance →
      jogState.zPos + direction * jogState.jogDistance ≤ 2147483647 →
      handleJogMovement jogState m 2 direction env =
        some ({ jogState with isJogging := true }, m)) := by
  refine ⟨fun hout hlo hhi => ?_, fun hout hlo hhi => ?_, fun hout hlo hhi => ?_⟩
  · rw [handleJogMovement_valid jogState m 0 direction env stepperX JogState.xPos _
      (jogState.xPos + direction * jogState.jogDistance) rfl
      (by rw [wrapLong_add_wrapLong]; exact wrapLong_of_representable _ hlo hhi),
      if_neg (fun h => hout ((isValidPosition_iff _ _).mp h))]
  · rw [handleJogMovement_valid jogState m 1 direction env stepperY JogState.yPos _
      (jogState.yPos + direction * jogState.jogDistance) rfl
      (by rw [wrapLong_add_wrapLong]; exact wrapLong_of_representable _ hlo hhi),
      if_neg (fun h => hout ((isValidPosition_iff _ _).mp h))]
  · rw [handleJogMovement_valid jogState m 2 direction env stepperZ JogState.zPos _
      (jogState.zPos + direction * jogState.jogDistance) rfl
      (by rw [wrapLong_add_wrapLong]; exact wrapLong_of_representable _ hlo hhi),
      if_neg (fun h => hout ((isValidPosition_iff _ _).mp h))]

theorem handleJogMovement_out_of_bounds_witness :
    handleJogMovement jogStateAtBoot motorsAtBoot 0 (-1) (moveEnvOf []) =
      some ({ jogStateAtBoot with isJogging := true }, motorsAtBoot) :=
  (handleJogMovement_out_of_bounds jogStateAtBoot motorsAtBoot (-1) (moveEnvOf [])).1
    (by decide) (by decide) (by decide)


theorem moveLoop_stepsFrom (faultStop abortStop : StopEnv) (n : Nat) :
    ∀ (c : Nat) (m : Motors),
      m.stepperX.currentPos = (c : Int) →
      m.stepperX.targetPos = ((c + n : Nat) : Int) →
      m.lastCheck = 100 * (c / 100) →
      m.lastPosition = ((100 * (c / 100) : Nat) : Int) →
      c + n < 4294967296 →
      ∃ m', moveLoop stepperX faultStop abortStop (stepsFrom c n) m = some (true, m') ∧
        m'.stepperX.currentPos = ((c + n : Nat) : Int) := by
  induction n with
  | zero =>
    intro c m hc ht _ _ _
    refine ⟨m, ?_, by simpa using hc⟩
    simp [stepsFrom, moveLoop, distanceToGo, Motors.get, hc, ht]
  | succ n ih =>
    intro c m hc ht hchk hlast hlt
    have hgo : distanceToGo m stepperX ≠ 0 := by
      simp only [distanceToGo, Motors.get, hc, ht]
      omega
    rw [stepsFrom, moveLoop, if_neg hgo]
    have hel : elapsed (c + 1) (100 * (c / 100)) = c + 1 - 100 * (c / 100) := by
      unfold elapsed
      omega
    by_cases hdue : (c + 1) % 100 = 0
    · have hmon : monitorMovement (run m stepperX ((c : Int) + 1)) stepperX
          (tickAt ((c : Int) + 1) (c + 1) Level.HIGH) faultStop =
          some (true, { run m stepperX ((c : Int) + 1) with
            lastPosition := (c : Int) + 1, lastCheck := c + 1 }) := by
        unfold monitorMovement
        have h1 : SAFE_POSITION_CHECK_INTERVAL ≤
            elapsed (tickAt ((c : Int) + 1) (c + 1) Level.HIGH).millis
              (run m stepperX ((c : Int) + 1)).lastCheck := by
          show 100 ≤ elapsed (c + 1) m.lastCheck
          rw [hchk, hel]
          omega
        have h2 : currentPosition (run m stepperX ((c : Int) + 1)) stepperX ≠
            (run m stepperX ((c : Int) + 1)).lastPosition := by
          show (c : Int) + 1 ≠ m.lastPosition
          rw [hlast]
          omega
        have h3 : ¬ (drvStatus stepperX
            (tickAt ((c : Int) + 1) (c + 1) Level.HIGH).DRV_STATUS &&& 0x00010000 ≠ 0) := by
          show ¬ ((0 : Nat) &&& 0x00010000 ≠ 0)
          decide
        rw [if_pos h1, if_neg h2, if_neg h3]
        rfl
      rw [show (tickAt ((c : Int) + 1) (c + 1) Level.HIGH).position = (c : Int) + 1 from rfl,
        hmon]
      obtain ⟨m', h1, h2⟩ := ih (c + 1)
        { run m stepperX ((c : Int) + 1) with lastPosition := (c : Int) + 1, lastCheck := c + 1 }
        (by show (c : Int) + 1 = _; push_cast; rfl)
        (by show m.stepperX.targetPos = _; rw [ht]; push_cast; omega)
        (by show c + 1 = 100 * ((c + 1) / 100); omega)
        (by show (c : Int) + 1 = _; push_cast; omega)
        (by omega)
      exact ⟨m', h1, by rw [h2]; push_cast; omega⟩
    · have hmon : monitorMovement (run m stepperX ((c : Int) + 1)) stepperX
          (tickAt ((c : Int) + 1) (c + 1) Level.HIGH) faultStop =
          some (true, run m stepperX ((c : Int) + 1)) := by
        unfold monitorMovement
        have h1 : ¬ SAFE_POSITION_CHECK_INTERVAL ≤
            elapsed (tickAt ((c : Int) + 1) (c + 1) Level.HIGH).millis
              (run m stepperX ((c : Int) + 1)).lastCheck := by
          show ¬ 100 ≤ elapsed (c + 1) m.lastCheck
          rw [hchk, hel]
          omega
        rw [if_neg h1]
      rw [show (tickAt ((c : Int) + 1) (c + 1) Level.HIGH).position = (c : Int) + 1 from rfl,
        hmon]
      obtain ⟨m', h1, h2⟩ := ih (c + 1) (run m stepperX ((c : Int) + 1))
        (by show (c : Int) + 1 = _; push_cast; rfl)
        (by show m.stepperX.targetPos = _; rw [ht]; push_cast; omega)
        (by show m.lastCheck = 100 * ((c + 1) / 100); rw [hchk]; omega)
        (by show m.lastPosition = _; rw [hlast]; push_cast; omega)
        (by omega)
      exact ⟨m', h1, by rw [h2]; push_cast; omega⟩

theorem handleJogMovement_in_bounds_witness :
    ∃ m', moveToPosition motorsYSafe stepperX 1000 thousandSteps = some (true, m') ∧
      handleJogMovement jogStateAtBoot motorsYSafe 0 1 thousandSteps =
        some ({ jogStateAtBoot with isJogging := true, xPos := 1000 }, m') := by
  obtain ⟨m', hloop, -⟩ := moveLoop_stepsFrom stopAtRest stopAtRest 1000 0
    (moveTo motorsYSafe stepperX 1000) rfl rfl rfl rfl (by decide)
  have hmove : moveToPosition motorsYSafe stepperX 1000 thousandSteps = some (true, m') := by
    have hvalid : isValidPosition stepperX 1000 = true := by decide
    have hclear : checkForObstacles motorsYSafe stepperX 1000 thousandSteps.digitalRead
        = false := by decide
    unfold moveToPosition
    rw [hvalid, hclear]
    simp only [Bool.not_true, Bool.false_eq_true, if_false, thousandSteps, moveEnvOf]
    exact hloop
  refine ⟨m', hmove, ?_⟩
  have h := (handleJogMovement_in_bounds jogStateAtBoot motorsYSafe 1 thousandSteps).1
    (by decide)
  rw [h]
  have hsum : jogStateAtBoot.xPos + 1 * jogStateAtBoot.jogDistance = 1000 := by decide
  rw [hsum, hmove]
  rfl

/-! ## Errors, recovery, pause and resume -/

/-- C15: `isErrorRecoverable(code)` is true exactly for scale communication,
scale timeout, motor timeout, weight over tolerance and no weight detected,
and false for the six other fault codes and for `ERROR_NONE`. -/
theorem isErrorRecoverable_iff (error : ErrorCode) :
    (isErrorRecoverable error = true ↔
      error ∈ [ERROR_SCALE_COMMUNICATION, ERROR_SCALE_TIMEOUT, ERROR_MOTOR_TIMEOUT,
        ERROR_WEIGHT_OVER_TOLERANCE, ERROR_NO_WEIGHT_DETECTED]) ∧
    (isErrorRecoverable error = false ↔
      error ∈ [ERROR_LIMIT_SWITCH, ERROR_EEPROM_CORRUPTION, ERROR_PROFILE_INVALID,
        ERROR_SD_CARD, ERROR_MOTOR_FAULT, ERROR_SYSTEM_FAULT, ERROR_NONE]) := by
  cases error <;> simp [isErrorRecoverable]

/-- C16: `recoverFromError` clears the error (`lastError` none, state Idle,
nothing else changed) exactly when the current `lastError` is recoverable and
both re-initialization and validation succeed; when the code is fatal or
either step fails the status is left unchanged, so a system in Error stays in
Error with the same code. -/
theorem recoverFromError_clears_iff (s : SystemStatus) (reinitialized validated : Bool) :
    recoverFromError s reinitialized validated =
      (if isErrorRecoverable s.lastError = true ∧ reinitialized = true ∧ validated = true then
        { s with lastError := ERROR_NONE, currentState := STATE_IDLE }
      else s) ∧
    (¬ (isErrorRecoverable s.lastError = true ∧ reinitialized = true ∧ validated = true) →
      s.currentState = STATE_ERROR →
      (recoverFromError s reinitialized validated).currentState = STATE_ERROR ∧
      (recoverFromError s reinitialized validated).lastError = s.lastError) := by
  have h : recoverFromError s reinitialized validated =
      (if isErrorRecoverable s.lastError = true ∧ reinitialized = true ∧ validated = true then
        { s with lastError := ERROR_NONE, currentState := STATE_IDLE }
      else s) := by
    unfold recoverFromError clearSystemError
    cases isErrorRecoverable s.lastError <;> cases reinitialized <;> cases validated <;> simp
  refine ⟨h, fun hnot hstate => ?_⟩
  rw [h, if_neg hnot]
  exact ⟨hstate, rfl⟩

theorem recoverFromError_clears_iff_witness :
    (recoverFromError
        { initSystemState with currentState := STATE_ERROR, lastError := ERROR_MOTOR_FAULT }
        true true).currentState = STATE_ERROR ∧
    (recoverFromError
        { initSystemState with currentState := STATE_ERROR, lastError := ERROR_MOTOR_FAULT }
        true true).lastError = ERROR_MOTOR_FAULT :=
  (recoverFromError_clears_iff
    { initSystemState with currentState := STATE_ERROR, lastError := ERROR_MOTOR_FAULT }
    true true).2 (by decide) rfl

set_option maxRecDepth 100000 in
theorem logEntry_fits (c : ErrorCode) :
    ("ERROR: " ++ errorMessage c ++ " (Code: " ++ toString c.toNat ++ ") - " ++
      errorMessage c).take 255 =
      "ERROR: " ++ errorMessage c ++ " (Code: " ++ toString c.toNat ++ ") - " ++
        errorMessage c := by
  cases c <;> decide

/-- C17: `handleSystemError(c)` sets `lastError = c` and the state Error,
leaves every other status field unchanged and appends one entry for `c` to
the error log; a second call with the same code leaves the status exactly as
the first call left it. -/
theorem handleSystemError_records (s : SystemStatus) (sdLog : List LogLine) (c : ErrorCode) :
    (handleSystemError s sdLog c).1 = { s with lastError := c, currentState := STATE_ERROR } ∧
    (handleSystemError s sdLog c).2 = sdLog ++
      [{ fileName := "error_log.txt",
         entry := "ERROR: " ++ errorMessage c ++ " (Code: " ++ toString c.toNat ++ ") - " ++
           errorMessage c }] ∧
    (handleSystemError (handleSystemError s sdLog c).1 (handleSystemError s sdLog c).2 c).1 =
      (handleSystemError s sdLog c).1 := by
  refine ⟨rfl, ?_, rfl⟩
  simp only [handleSystemError, logError, logEntry_fits]

/-- C18: from every prior status `clearSystemError` sets `lastError` to
`ERROR_NONE` and the state to Idle and changes nothing else, whether or not
the transition guard would allow Idle. -/
theorem clearSystemError_unconditional (s : SystemStatus) :
    clearSystemError s = { s with lastError := ERROR_NONE, currentState := STATE_IDLE } ∧
    (clearSystemError s).lastError = ERROR_NONE ∧
    (clearSystemError s).currentState = STATE_IDLE ∧
    (canTransitionTo { s with currentState := STATE_HOMING } STATE_IDLE = false ∧
      (clearSystemError { s with currentState := STATE_HOMING }).currentState = STATE_IDLE) :=
  ⟨rfl, rfl, rfl, rfl, rfl⟩

/-- C19: from every prior status `pauseSystem` sets the state to Paused and
`resumeSystem` sets it to Idle, whether or not the transition guard would
allow it, and `pauseSystem` followed by `resumeSystem` leaves `isPaused`
false and the state Idle. -/
theorem pause_resume (s : SystemStatus) :
    pauseSystem s = { s with isPaused := true, currentState := STATE_PAUSED } ∧
    resumeSystem s = { s with isPaused := false, currentState := STATE_IDLE } ∧
    (canTransitionTo { s with currentState := STATE_IDLE } STATE_PAUSED = false ∧
      (pauseSystem { s with currentState := STATE_IDLE }).currentState = STATE_PAUSED) ∧
    (canTransitionTo { s with currentState := STATE_HOMING } STATE_IDLE = false ∧
      (resumeSystem { s with currentState := STATE_HOMING }).currentState = STATE_IDLE) ∧
    (resumeSystem (pauseSystem s)).isPaused = false ∧
    (resumeSystem (pauseSystem s)).currentState = STATE_IDLE :=
  ⟨rfl, rfl, ⟨rfl, rfl⟩, ⟨rfl, rfl⟩, rfl, rfl⟩

/-! ## Stored motor positions -/

/-- C20: `validateMotorPositions` is true exactly when `isValid` is set and
all seven fields are in range (`xPos1`, `xPos4` in `[0, 235000]`; `zPos2`,
`zPos3`, `zPos5` in `[0, 250000]`; `gripperPosA`, `gripperPosB` in
`[0, 1000]`), and `initializeMotors` returns false whenever the record it
loaded fails that check. -/
theorem validateMotorPositions_iff (motorPos stored : MotorPositions) :
    (validateMotorPositions stored = true ↔
      stored.isValid = true ∧
      (0 ≤ stored.xPos1 ∧ stored.xPos1 ≤ 235000) ∧
      (0 ≤ stored.xPos4 ∧ stored.xPos4 ≤ 235000) ∧
      (0 ≤ stored.zPos2 ∧ stored.zPos2 ≤ 250000) ∧
      (0 ≤ stored.zPos3 ∧ stored.zPos3 ≤ 250000) ∧
      (0 ≤ stored.zPos5 ∧ stored.zPos5 ≤ 250000) ∧
      (0 ≤ stored.gripperPosA ∧ stored.gripperPosA ≤ 1000) ∧
      (0 ≤ stored.gripperPosB ∧ stored.gripperPosB ≤ 1000)) ∧
    (initializeMotors motorPos stored).2 = stored ∧
    (validateMotorPositions stored = false → (initializeMotors motorPos stored).1 = false) := by
  refine ⟨?_, ?_, ?_⟩
  · unfold validateMotorPositions
    simp only [X_MIN_POS, X_MAX_POS, Z_MIN_POS, Z_MAX_POS, GRIPPER_MIN_POS, GRIPPER_MAX_POS]
    cases stored.isValid
    · simp
    · simp only [Bool.not_true, Bool.false_eq_true, if_false, Bool.or_eq_true, decide_eq_true_eq]
      split_ifs <;> simp <;> omega
  · cases h : validateMotorPositions stored <;>
      simp [initializeMotors, loadMotorPositions, h]
  · intro h
    simp [initializeMotors, loadMotorPositions, h]

theorem validateMotorPositions_iff_witness :
    (initializeMotors motorPosAtBoot { motorPosAtBoot with isValid := true, zPos3 := 250001 }).1
      = false :=
  (validateMotorPositions_iff motorPosAtBoot
    { motorPosAtBoot with isValid := true, zPos3 := 250001 }).2.2 (by decide)

/-! ## Configuration defaults and error messages -/

/-- C23, the code at a failing input: when the stored checksum does not match,
the `loadSystemConfig()` of `system_state.cpp` resets the configuration and
saves it again, but with tolerance 0.1 and vibratory speed 0 where the
documented defaults are 1.0 and 128. -/
theorem loadSystemConfig_mismatch (stored : SystemConfig) (calculateChecksum : SystemConfig → Nat)
    (puts : List (Nat × SystemConfig)) (hbad : stored.checksum ≠ calculateChecksum stored) :
    (system_state.loadSystemConfig stored calculateChecksum puts).1.targetWeight = float32_0_0 ∧
    (system_state.loadSystemConfig stored calculateChecksum puts).1.tolerancePercentage =
      float32_0_1 ∧
    (system_state.loadSystemConfig stored calculateChecksum puts).1.caseQuantity = 0 ∧
    (system_state.loadSystemConfig stored calculateChecksum puts).1.vibratorySpeed = 0 ∧
    (system_state.loadSystemConfig stored calculateChecksum puts).1.scaleSettleTime = 1000 ∧
    (system_state.loadSystemConfig stored calculateChecksum puts).1.accuracyRange =
      float32_0_1 ∧
    (system_state.loadSystemConfig stored calculateChecksum puts).2 =
      puts ++ [(200, (system_state.loadSystemConfig stored calculateChecksum puts).1)] ∧
    ¬ SpecConfigDefaults (system_state.loadSystemConfig stored calculateChecksum puts).1 ∧
    SpecConfigDefaults eeprom_manager.defaultConfig := by
  unfold system_state.loadSystemConfig
  rw [if_pos hbad]
  refine ⟨rfl, rfl, rfl, rfl, rfl, rfl, rfl, ?_, by decide⟩
  rintro ⟨-, htol, -⟩
  have hne : float32_0_1 ≠ float32_1_0 := by decide
  exact hne htol

theorem loadSystemConfig_mismatch_witness :
    (system_state.loadSystemConfig staleConfig (fun _ => 0) []).1.tolerancePercentage =
      float32_0_1 ∧
    (system_state.loadSystemConfig staleConfig (fun _ => 0) []).1.vibratorySpeed = 0 ∧
    ¬ SpecConfigDefaults (system_state.loadSystemConfig staleConfig (fun _ => 0) []).1 :=
  have h := loadSystemConfig_mismatch staleConfig (fun _ => 0) [] (by decide)
  ⟨h.2.1, h.2.2.2.1, h.2.2.2.2.2.2.2.1⟩

/-- C24: every `ErrorCode` value (0 to 11) indexes an entry of the twelve-entry
`ERROR_MESSAGES` table, and each code maps to one fixed string, among them
"System fault" for `ERROR_SYSTEM_FAULT` and "No error" for `ERROR_NONE`. -/
theorem ERROR_MESSAGES_lookup (c : ErrorCode) :
    ERROR_MESSAGES.length = 12 ∧
    c.toNat < ERROR_MESSAGES.length ∧
    ERROR_MESSAGES[c.toNat]? = some (errorMessage c) ∧
    errorMessage c =
      (match c with
       | ERROR_NONE => "No error"
       | ERROR_SCALE_COMMUNICATION => "Scale communication error"
       | ERROR_SCALE_TIMEOUT => "Scale timeout error"
       | ERROR_MOTOR_TIMEOUT => "Motor timeout error"
       | ERROR_LIMIT_SWITCH => "Limit switch triggered"
       | ERROR_WEIGHT_OVER_TOLERANCE => "Weight over tolerance"
       | ERROR_NO_WEIGHT_DETECTED => "No weight detected"
       | ERROR_EEPROM_CORRUPTION => "EEPROM corruption"
       | ERROR_PROFILE_INVALID => "Invalid profile"
       | ERROR_SD_CARD => "SD card error"
       | ERROR_MOTOR_FAULT => "Motor fault"
       | ERROR_SYSTEM_FAULT => "System fault") := by
  cases c <;> exact ⟨rfl, by decide, rfl, rfl⟩

/-! ## Consequences of the collision check and of the sampling statics -/

/-- C25: when X stands below `X_SAFE_POSITION` and Y below `Y_SAFE_POSITION`,
`moveToPosition` refuses every move of X, of Y and of Z, whatever the target,
so `resetMotorsToSafePositions` returns false and leaves the motor state,
the positions of X, Y and Z included, unchanged. -/
theorem moves_refused_below_safe (m : Motors) (envZ envX envY : MoveEnv)
    (hx : currentPosition m stepperX < X_SAFE_POSITION)
    (hy : currentPosition m stepperY < Y_SAFE_POSITION) :
    (∀ (stepper : Stepper) (targetPos : Int) (env : MoveEnv),
      stepper = stepperX ∨ stepper = stepperY ∨ stepper = stepperZ →
      moveToPosition m stepper targetPos env = some (false, m)) ∧
    resetMotorsToSafePositions m envZ envX envY = some (false, m) := by
  have hall : ∀ (stepper : Stepper) (targetPos : Int) (env : MoveEnv),
      stepper = stepperX ∨ stepper = stepperY ∨ stepper = stepperZ →
      moveToPosition m stepper targetPos env = some (false, m) := by
    intro stepper targetPos env haxis
    unfold moveToPosition
    split
    · rfl
    · have hobs : checkForObstacles m stepper targetPos env.digitalRead = true := by
        unfold checkForObstacles
        rcases haxis with rfl | rfl | rfl <;> simp [hx, hy]
      rw [if_pos hobs]
  refine ⟨hall, ?_⟩
  unfold resetMotorsToSafePositions
  simp [hall stepperZ _ envZ (Or.inr (Or.inr rfl)), hall stepperX _ envX (Or.inl rfl),
    hall stepperY _ envY (Or.inr (Or.inl rfl))]

theorem moves_refused_below_safe_witness :
    resetMotorsToSafePositions motorsAtBoot (moveEnvOf []) (moveEnvOf []) (moveEnvOf []) =
      some (false, motorsAtBoot) :=
  (moves_refused_below_safe motorsAtBoot (moveEnvOf []) (moveEnvOf []) (moveEnvOf [])
    (by decide) (by decide)).2

/-- C26, the code at a failing input: at power-up the X cursor equals the
position of X (both 0); a jog of X by +1 is refused by the collision check (Y
stands below its safe position), X stays at 0, and the handler sets the cursor
to 1000 all the same. -/
theorem jog_cursor_leaves_position :
    jogStateAtBoot.xPos = currentPosition motorsAtBoot stepperX ∧
    moveToPosition motorsAtBoot stepperX 1000 (moveEnvOf []) = some (false, motorsAtBoot) ∧
    handleJogMovement jogStateAtBoot motorsAtBoot 0 1 (moveEnvOf []) =
      some ({ jogStateAtBoot with isJogging := true, xPos := 1000 }, motorsAtBoot) ∧
    (1000 : Int) ≠ currentPosition motorsAtBoot stepperX := by
  decide

/-- C27, the code at a failing input: a first gripper move from 0 to 2 ends
with position 1 recorded at its only sample; in a second move, from 2 back
toward 0, the first sample is taken in the pass that takes the gripper from 2
to 1, reports a stall and aborts the move: the position it is compared with
was recorded in the earlier move. -/
theorem first_sample_reports_stall :
    moveToPosition motorsAtBoot stepperGripper 2 gripperTwoSteps =
      some (true, afterGripperTwoSteps) ∧
    afterGripperTwoSteps.lastPosition = 1 ∧
    currentPosition afterGripperTwoSteps stepperGripper = 2 ∧
    currentPosition (run (moveTo afterGripperTwoSteps stepperGripper 0) stepperGripper 1)
      stepperGripper = 1 ∧
    monitorMovement (run (moveTo afterGripperTwoSteps stepperGripper 0) stepperGripper 1)
        stepperGripper (tickAt 1 300 Level.HIGH) stopAtRest =
      some (false, run (moveTo afterGripperTwoSteps stepperGripper 0) stepperGripper 1) ∧
    moveToPosition afterGripperTwoSteps stepperGripper 0 gripperStepsBack =
      some (false, stopCalls (run (moveTo afterGripperTwoSteps stepperGripper 0) stepperGripper 1)
        stopAtRest.restAt) := by
  decide

/-- C28: for the case feeder and the powder dropper `isValidPosition` is false
for every target, so `moveToPosition` returns false for every target with
nothing commanded and nothing changed. -/
theorem feeder_dropper_never_move (m : Motors) (stepper : Stepper) (targetPos : Int)
    (env : MoveEnv) (haxis : stepper = stepperCaseFeeder ∨ stepper = stepperPowderDropper) :
    isValidPosition stepper targetPos = false ∧
    moveToPosition m stepper targetPos env = some (false, m) := by
  have hinv : isValidPosition stepper targetPos = false := by
    rcases haxis with rfl | rfl <;> rfl
  exact ⟨hinv, by simp [moveToPosition, hinv]⟩

theorem feeder_dropper_never_move_witness :
    isValidPosition stepperPowderDropper 10 = false ∧
    moveToPosition motorsAtBoot stepperPowderDropper 10 (moveEnvOf []) =
      some (false, motorsAtBoot) :=
  feeder_dropper_never_move motorsAtBoot stepperPowderDropper 10 (moveEnvOf []) (Or.inr rfl)

/-- C29: `clearSystemError` and `resumeSystem` leave `isEmergencyStop` as it
is; from a ready system, `emergencyStop` followed by `clearSystemError` gives
state Idle and no error with `isSystemReady()` false, still false after
`resumeSystem`, and true again after `resetSystem`. -/
theorem emergency_flag_survives_clear (s : SystemStatus) (sdLog : List LogLine)
    (hready : isSystemReady s = true) :
    (clearSystemError s).isEmergencyStop = s.isEmergencyStop ∧
    (resumeSystem s).isEmergencyStop = s.isEmergencyStop ∧
    (clearSystemError (system_state.emergencyStop s sdLog).1).currentState = STATE_IDLE ∧
    (clearSystemError (system_state.emergencyStop s sdLog).1).lastError = ERROR_NONE ∧
    isSystemReady (clearSystemError (system_state.emergencyStop s sdLog).1) = false ∧
    isSystemReady (resumeSystem (clearSystemError (system_state.emergencyStop s sdLog).1)) =
      false ∧
    isSystemReady (resetSystem (clearSystemError (system_state.emergencyStop s sdLog).1)) =
      true := by
  refine ⟨rfl, rfl, rfl, rfl, ?_, ?_, ?_⟩
  · simp [isSystemReady, clearSystemError, system_state.emergencyStop, handleSystemError]
  · simp [isSystemReady, resumeSystem, clearSystemError, system_state.emergencyStop,
      handleSystemError]
  · simp only [isSystemReady, Bool.and_eq_true, Bool.not_eq_true', beq_iff_eq] at hready
    simp [isSystemReady, resetSystem, clearSystemError, system_state.emergencyStop,
      handleSystemError, hready.1.2]

theorem emergency_flag_survives_clear_witness :
    isSystemReady (clearSystemError (system_state.emergencyStop initSystemState []).1) = false ∧
    isSystemReady
      (resetSystem (clearSystemError (system_state.emergencyStop initSystemState []).1)) = true :=
  have h := emergency_flag_survives_clear initSystemState [] (by decide)
  ⟨h.2.2.2.2.1, h.2.2.2.2.2.2⟩

/-! ## The persistent store -/

theorem put_length (e : EEPROMClass) (a : Nat) (bytes : List Nat) :
    (e.put a bytes).length = e.length := by
  unfold EEPROMClass.put
  split <;> rfl

theorem read_put_outside (e : EEPROMClass) (a : Nat) (bytes : List Nat) (i : Nat)
    (h : i < a ∨ a + bytes.length ≤ i) : (e.put a bytes).read i = e.read i := by
  unfold EEPROMClass.put
  split
  · rfl
  · have hno : ¬ (a ≤ i ∧ i < a + bytes.length) := by omega
    simp only [EEPROMClass.read, if_neg hno]

theorem read_put_inside (e : EEPROMClass) (a : Nat) (bytes : List Nat) (k : Nat)
    (hfit : a + bytes.length ≤ e.length) (hk : k < bytes.length) :
    (e.put a bytes).read (a + k) = bytes.getD k 0 % 256 := by
  unfold EEPROMClass.put
  rw [if_neg (by omega)]
  have hyes : a ≤ a + k ∧ a + k < a + bytes.length := by omega
  simp only [EEPROMClass.read, if_pos hyes, Nat.add_sub_cancel_left]

theorem checksum_fold_acc (e : EEPROMClass) (l : List Nat) (acc : Nat) :
    l.foldl (fun c i => if i ≠ EEPROM_CHECKSUM_ADDR then c ^^^ e.read i else c) acc =
      acc ^^^ l.foldl (fun c i => if i ≠ EEPROM_CHECKSUM_ADDR then c ^^^ e.read i else c) 0 := by
  induction l generalizing acc with
  | nil => simp
  | cons i t ih =>
    simp only [List.foldl_cons]
    rw [ih, ih (if i ≠ EEPROM_CHECKSUM_ADDR then 0 ^^^ e.read i else 0)]
    split <;> simp [Nat.xor_assoc]

theorem checksum_fold_congr (e e' : EEPROMClass)
    (hsame : ∀ i, i ≠ EEPROM_CHECKSUM_ADDR → e'.read i = e.read i) (l : List Nat) (acc : Nat) :
    l.foldl (fun c i => if i ≠ EEPROM_CHECKSUM_ADDR then c ^^^ e'.read i else c) acc =
      l.foldl (fun c i => if i ≠ EEPROM_CHECKSUM_ADDR then c ^^^ e.read i else c) acc := by
  induction l generalizing acc with
  | nil => rfl
  | cons i t ih =>
    simp only [List.foldl_cons]
    rw [ih]
    by_cases hi : i ≠ EEPROM_CHECKSUM_ADDR
    · rw [if_pos hi, if_pos hi, hsame i hi]
    · rw [if_neg hi, if_neg hi]

theorem checksum_fold_update (e e' : EEPROMClass) (a : Nat) (hne : a ≠ EEPROM_CHECKSUM_ADDR)
    (hsame : ∀ i, i ≠ a → e'.read i = e.read i) (l : List Nat) (hnd : l.Nodup) :
    l.foldl (fun c i => if i ≠ EEPROM_CHECKSUM_ADDR then c ^^^ e'.read i else c) 0 =
      if a ∈ l then
        l.foldl (fun c i => if i ≠ EEPROM_CHECKSUM_ADDR then c ^^^ e.read i else c) 0 ^^^
          (e.read a ^^^ e'.read a)
      else l.foldl (fun c i => if i ≠ EEPROM_CHECKSUM_ADDR then c ^^^ e.read i else c) 0 := by
  induction l with
  | nil => simp
  | cons i t ih =>
    obtain ⟨hit, hnt⟩ := List.nodup_cons.mp hnd
    simp only [List.foldl_cons]
    rw [checksum_fold_acc e', checksum_fold_acc e, ih hnt]
    by_cases hia : i = a
    · subst hia
      rw [if_neg hit, if_pos (List.mem_cons_self _ _), if_pos hne, if_pos hne]
      simp only [Nat.zero_xor]
      generalize t.foldl (fun c i => if i ≠ EEPROM_CHECKSUM_ADDR then c ^^^ e.read i else c) 0 = F
      rw [Nat.xor_comm (e.read i) F, Nat.xor_assoc F, ← Nat.xor_assoc (e.read i),
        Nat.xor_self, Nat.zero_xor, Nat.xor_comm]
    · have hmem : a ∈ i :: t ↔ a ∈ t := by
        simp [List.mem_cons, Ne.symm hia]
      rw [hsame i hia]
      by_cases hat : a ∈ t
      · rw [if_pos hat, if_pos (hmem.mpr hat), Nat.xor_assoc]
      · rw [if_neg hat, if_neg (fun h => hat (hmem.mp h))]

theorem checksum_fold_filter (e : EEPROMClass) (l : List Nat) (acc : Nat) :
    l.foldl (fun c i => if i ≠ EEPROM_CHECKSUM_ADDR then c ^^^ e.read i else c) acc =
      ((l.filter (fun i => i ≠ 1)).map e.read).foldl (fun c b => c ^^^ b) acc := by
  induction l generalizing acc with
  | nil => rfl
  | cons i t ih =>
    simp only [List.foldl_cons, List.filter_cons]
    rw [ih]
    by_cases hi : i = 1
    · simp [hi, EEPROM_CHECKSUM_ADDR]
    · simp [hi, EEPROM_CHECKSUM_ADDR]

/-- C22: `calculateChecksum` is the XOR of every byte of the store except the
one at the checksum address (1); replacing a single byte at any other address
of the store by a different value changes the result, and the result does not
depend on the byte in the checksum slot, so that recomputing it after it has
been stored there returns the same byte. -/
theorem calculateChecksum_xor (e : EEPROMClass) (a v : Nat) :
    eeprom_manager.calculateChecksum e =
      (((List.range e.length).filter (fun i => i ≠ 1)).map e.read).foldl
        (fun c b => c ^^^ b) 0 ∧
    (a < e.length → a ≠ 1 → v % 256 ≠ e.read a →
      eeprom_manager.calculateChecksum
          { e with data := fun i => if i = a then v else e.data i } ≠
        eeprom_manager.calculateChecksum e) ∧
    eeprom_manager.calculateChecksum
        (e.put EEPROM_CHECKSUM_ADDR [eeprom_manager.calculateChecksum e]) =
      eeprom_manager.calculateChecksum e := by
  refine ⟨checksum_fold_filter e _ 0, ?_, ?_⟩
  · intro hlt hne hdiff heq
    have hsame : ∀ i, i ≠ a →
        EEPROMClass.read { e with data := fun i => if i = a then v else e.data i } i =
          e.read i := by
      intro i hi
      simp [EEPROMClass.read, hi]
    have hnew : EEPROMClass.read { e with data := fun i => if i = a then v else e.data i } a =
        v % 256 := by
      simp [EEPROMClass.read]
    have hupd := checksum_fold_update e _ a hne hsame (List.range e.length) (List.nodup_range _)
    rw [if_pos (List.mem_range.mpr hlt), hnew] at hupd
    unfold eeprom_manager.calculateChecksum at heq
    rw [show ({ e with data := fun i => if i = a then v else e.data i } : EEPROMClass).length =
      e.length from rfl, hupd] at heq
    have hzero : e.read a ^^^ v % 256 = 0 := by
      apply Nat.xor_right_injective
      rw [heq, Nat.xor_zero]
    exact hdiff (Nat.xor_eq_zero.mp hzero).symm
  · unfold eeprom_manager.calculateChecksum
    rw [put_length]
    apply checksum_fold_congr
    intro i hi
    apply read_put_outside
    simp only [List.length_singleton, EEPROM_CHECKSUM_ADDR] at hi ⊢
    omega

theorem calculateChecksum_xor_witness :
    eeprom_manager.calculateChecksum
        { erasedStore with data := fun i => if i = 500 then 0 else erasedStore.data i } ≠
      eeprom_manager.calculateChecksum erasedStore :=
  (calculateChecksum_xor erasedStore 500 0).2.1 (by decide) (by decide) (by decide)


theorem decodeLong_longBytes (x : Int) (hlo : -2147483648 ≤ x) (hhi : x ≤ 2147483647) :
    decodeLong ((longBytes x).getD 0 0 % 256) ((longBytes x).getD 1 0 % 256)
      ((longBytes x).getD 2 0 % 256) ((longBytes x).getD 3 0 % 256) = x := by
  simp only [longBytes, wordBytes, List.getD_cons_zero, List.getD_cons_succ, decodeLong, wrapLong]
  omega

theorem getLong_put_field (e : EEPROMClass) (a : Nat) (bytes : List Nat) (k : Nat) (x : Int)
    (hfit : a + bytes.length ≤ e.length) (hk : k + 4 ≤ bytes.length)
    (h0 : bytes.getD k 0 = (longBytes x).getD 0 0)
    (h1 : bytes.getD (k + 1) 0 = (longBytes x).getD 1 0)
    (h2 : bytes.getD (k + 2) 0 = (longBytes x).getD 2 0)
    (h3 : bytes.getD (k + 3) 0 = (longBytes x).getD 3 0)
    (hlo : -2147483648 ≤ x) (hhi : x ≤ 2147483647) :
    (e.put a bytes).getLong (a + k) = x := by
  unfold EEPROMClass.getLong
  rw [Nat.add_assoc a k 1, Nat.add_assoc a k 2, Nat.add_assoc a k 3,
    read_put_inside e a bytes k hfit (by omega),
    read_put_inside e a bytes (k + 1) hfit (by omega),
    read_put_inside e a bytes (k + 2) hfit (by omega),
    read_put_inside e a bytes (k + 3) hfit (by omega), h0, h1, h2, h3]
  exact decodeLong_longBytes x hlo hhi

theorem getMotorPositions_congr (e e' : EEPROMClass) (a : Nat)
    (h : ∀ i, a ≤ i → i < a + 30 → e'.read i = e.read i) :
    eeprom_manager.getMotorPositions e' a = eeprom_manager.getMotorPositions e a := by
  simp (disch := omega) only [eeprom_manager.getMotorPositions, EEPROMClass.getLong,
    EEPROMClass.getBool, h]

theorem getMotorPositions_put (e : EEPROMClass) (a : Nat) (p : eeprom_manager.MotorPositions)
    (hfit : a + 32 ≤ e.length) (hck : p.checksum < 256)
    (hlong : (-2147483648 ≤ p.xPos1 ∧ p.xPos1 ≤ 2147483647) ∧
      (-2147483648 ≤ p.xPos4 ∧ p.xPos4 ≤ 2147483647) ∧
      (-2147483648 ≤ p.zPos2 ∧ p.zPos2 ≤ 2147483647) ∧
      (-2147483648 ≤ p.zPos3 ∧ p.zPos3 ≤ 2147483647) ∧
      (-2147483648 ≤ p.zPos5 ∧ p.zPos5 ≤ 2147483647) ∧
      (-2147483648 ≤ p.gripperPosA ∧ p.gripperPosA ≤ 2147483647) ∧
      (-2147483648 ≤ p.gripperPosB ∧ p.gripperPosB ≤ 2147483647)) :
    eeprom_manager.getMotorPositions (e.put a p.bytes) a = p := by
  have hlen : p.bytes.length = 32 := rfl
  have hfit' : a + p.bytes.length ≤ e.length := by omega
  obtain ⟨h1, h2, h3, h4, h5, h6, h7⟩ := hlong
  have f1 := getLong_put_field e a p.bytes 0 p.xPos1 hfit' (by omega) rfl rfl rfl rfl h1.1 h1.2
  have f2 := getLong_put_field e a p.bytes 4 p.xPos4 hfit' (by omega) rfl rfl rfl rfl h2.1 h2.2
  have f3 := getLong_put_field e a p.bytes 8 p.zPos2 hfit' (by omega) rfl rfl rfl rfl h3.1 h3.2
  have f4 := getLong_put_field e a p.bytes 12 p.zPos3 hfit' (by omega) rfl rfl rfl rfl h4.1 h4.2
  have f5 := getLong_put_field e a p.bytes 16 p.zPos5 hfit' (by omega) rfl rfl rfl rfl h5.1 h5.2
  have f6 := getLong_put_field e a p.bytes 20 p.gripperPosA hfit' (by omega) rfl rfl rfl rfl
    h6.1 h6.2
  have f7 := getLong_put_field e a p.bytes 24 p.gripperPosB hfit' (by omega) rfl rfl rfl rfl
    h7.1 h7.2
  have f8 : (e.put a p.bytes).getBool (a + 28) = p.isValid := by
    unfold EEPROMClass.getBool
    rw [read_put_inside e a p.bytes 28 hfit' (by omega)]
    show ((if p.isValid = true then 1 else 0) % 256 != 0) = p.isValid
    cases p.isValid <;> rfl
  have f9 : (e.put a p.bytes).read (a + 29) = p.checksum := by
    rw [read_put_inside e a p.bytes 29 hfit' (by omega)]
    show p.checksum % 256 % 256 = p.checksum
    omega
  unfold eeprom_manager.getMotorPositions
  rw [Nat.add_zero] at f1
  rw [f1, f2, f3, f4, f5, f6, f7, f8, f9]

theorem loadMotorPositions_saveMotorPositions (e : EEPROMClass)
    (p : eeprom_manager.MotorPositions) (commit : Bool) :
    (eeprom_manager.loadMotorPositions (eeprom_manager.saveMotorPositions e p commit).2).2 =
      eeprom_manager.getMotorPositions (e.put 500 p.bytes) 500 := by
  unfold eeprom_manager.loadMotorPositions eeprom_manager.saveMotorPositions
  apply getMotorPositions_congr
  intro i h1 h2
  apply read_put_outside
  simp only [EEPROM_CHECKSUM_ADDR, EEPROM_POSITIONS_START, List.length_singleton] at *
  omega

/-- C21: with the `saveMotorPositions(positions)` and `loadMotorPositions`
of `eeprom_manager.cpp`, on a store that holds the record: saving `p` and then
loading yields a record equal to `p` and returns true when `p.isValid` is true
and the seven fields are in bounds, and returns false when `p.isValid` is
false. -/
theorem motorPositions_roundtrip (e : EEPROMClass) (p : eeprom_manager.MotorPositions)
    (commit : Bool) (hcap : 532 ≤ e.length) (hck : p.checksum < 256) :
    (p.isValid = true → SpecPositionsInBounds p →
      eeprom_manager.loadMotorPositions (eeprom_manager.saveMotorPositions e p commit).2 =
        (true, p)) ∧
    (p.isValid = false →
      (eeprom_manager.loadMotorPositions
        (eeprom_manager.saveMotorPositions e p commit).2).1 = false) := by
  constructor
  · intro hvalid hin
    have hget := loadMotorPositions_saveMotorPositions e p commit
    have hlong : eeprom_manager.getMotorPositions (e.put 500 p.bytes) 500 = p := by
      apply getMotorPositions_put e 500 p (by omega) hck
      unfold SpecPositionsInBounds at hin
      omega
    rw [hlong] at hget
    have hfst : (eeprom_manager.loadMotorPositions
        (eeprom_manager.saveMotorPositions e p commit).2).1 =
        (eeprom_manager.loadMotorPositions
          (eeprom_manager.saveMotorPositions e p commit).2).2.isValid := rfl
    rw [hget, hvalid] at hfst
    exact Prod.ext hfst hget
  · intro hinvalid
    have hget := loadMotorPositions_saveMotorPositions e p commit
    have hfst : (eeprom_manager.loadMotorPositions
        (eeprom_manager.saveMotorPositions e p commit).2).1 =
        (eeprom_manager.loadMotorPositions
          (eeprom_manager.saveMotorPositions e p commit).2).2.isValid := rfl
    have hlen : p.bytes.length = 32 := rfl
    have hbool : (eeprom_manager.getMotorPositions (e.put 500 p.bytes) 500).isValid =
        ((e.put 500 p.bytes).read (500 + 28) != 0) := rfl
    rw [hfst, hget, hbool, read_put_inside e 500 p.bytes 28 (by omega) (by omega)]
    have hbyte : p.bytes.getD 28 0 = if p.isValid = true then 1 else 0 := rfl
    rw [hbyte, hinvalid]
    rfl

theorem motorPositions_roundtrip_witness :
    eeprom_manager.loadMotorPositions
        (eeprom_manager.saveMotorPositions erasedStore calibratedPositions true).2 =
      (true, calibratedPositions) :=
  (motorPositions_roundtrip erasedStore calibratedPositions true (by decide) (by decide)).1
    rfl (by decide)


/-- C30, the code at a failing input: profile slot 8 occupies the bytes 484 to
531 and so covers the motor-position record at 500 to 531; after
`savePowderProfile(8, profileA)` byte 500 holds a character of the profile
name and the motor-position record no longer loads as it was saved. -/
theorem savePowderProfile_overwrites_positions :
    (0 ≤ (8 : Int) ∧ (8 : Int) < MAX_PROFILES) ∧
    eeprom_manager.loadMotorPositions storeWithPositions = (true, calibratedPositions) ∧
    (eeprom_manager.savePowderProfile storeWithPositions 8 profileA true).1 = true ∧
    storeWithPositions.read 500 = 232 ∧
    (eeprom_manager.savePowderProfile storeWithPositions 8 profileA true).2.read 500 = 65 ∧
    (eeprom_manager.loadMotorPositions
      (eeprom_manager.savePowderProfile storeWithPositions 8 profileA true).2).2.xPos1 =
        1094795585 ∧
    (eeprom_manager.loadMotorPositions
      (eeprom_manager.savePowderProfile storeWithPositions 8 profileA true).2).2 ≠
        calibratedPositions := by
  have hload : eeprom_manager.loadMotorPositions storeWithPositions =
      (true, calibratedPositions) := by
    have hget := loadMotorPositions_saveMotorPositions erasedStore calibratedPositions true
    rw [getMotorPositions_put erasedStore 500 calibratedPositions (by decide) (by decide)
      (by decide)] at hget
    exact Prod.ext (by rw [show (eeprom_manager.loadMotorPositions storeWithPositions).1 =
      (eeprom_manager.loadMotorPositions storeWithPositions).2.isValid from rfl]
                       exact congrArg eeprom_manager.MotorPositions.isValid hget) hget
  have hx : (eeprom_manager.loadMotorPositions
      (eeprom_manager.savePowderProfile storeWithPositions 8 profileA true).2).2.xPos1 =
        1094795585 := by decide
  refine ⟨by decide, hload, by decide, by decide, by decide, hx, ?_⟩
  intro h
  rw [h] at hx
  exact absurd hx (by decide)

end PowderDropper
